import Mathlib

/-!
# Verification of the routing and aggregation layer of a BI agent

Shallow embedding of the Python sources of the Business-Intelligence-Agent
repository (`ollama_client.py`, `tools/router.py`, `tools/yoy_comparison.py`,
`tools/anomaly_detection.py`, `tools/growth_margin_matrix.py`,
`tools/price_elasticity.py`, `data_loader.py`, `config.py`), together with
theorems settling the frozen claims about the spec.

Conventions of the embedding:
* Python strings are Lean `String`s; `s.lower()` is `lowerStr`, the Python
  substring test `a in b` is `containsSub b a`.
* Python values that flow through filter dictionaries are modelled by the
  inductive `PyVal` (None / str / int / bool), with Python truthiness.
* IEEE floats are modelled by `PF`: an exact rational together with the
  three non-finite values NaN / +inf / -inf, with NaN-propagating
  arithmetic and IEEE comparison semantics (claims in this repository
  depend on NaN/inf behaviour, never on rounding).
* Fallible Python code (tuple unpacking, `int(...)` conversions) is
  modelled in the `Except String` monad.
-/

namespace BIAgent

/-- ASCII lowercasing, modelling Python `str.lower()` on the ASCII text this
system handles. -/
def lowerStr (s : String) : String := ⟨s.data.map Char.toLower⟩

/-- Does the character list start with `pre`? -/
def startsWithL (pre cs : List Char) : Bool :=
  match pre, cs with
  | [], _ => true
  | _ :: _, [] => false
  | p :: ps, c :: cs => p == c && startsWithL ps cs

/-- Is `needle` a contiguous infix of the character list? -/
def infixOfL (needle : List Char) : List Char → Bool
  | [] => needle.isEmpty
  | c :: cs => startsWithL needle (c :: cs) || infixOfL needle cs

/-- Python substring test `needle in haystack`. -/
def containsSub (haystack needle : String) : Bool :=
  infixOfL needle.data haystack.data

/-- Python `any(kw in q for kw in kws)`. -/
def anyKw (q : String) (kws : List String) : Bool :=
  kws.any (fun kw => containsSub q kw)

/-! ## Keyword lists of `validate_routing` (ollama_client.py 446-603) -/

/-- `_BRAND_NAMES` (ollama_client.py 446). -/
def BRAND_NAMES : List String :=
  ["novex", "vetra", "trion", "zentra", "dexon",
   "fynix", "kryta", "lumix", "quanta", "solvo"]

/-- `out_of_scope_kw` (ollama_client.py 477). -/
def out_of_scope_kw : List String :=
  ["average order value", "aov", "customer count",
   "number of customers", "how many customers",
   "retention rate", "churn", "clv", "lifetime value",
   "inventory", "stock level", "reorder", "competitor",
   "market share", "website traffic", "digital", "online sales",
   "foot traffic", "employee", "headcount"]

/-- `brand_keywords` (ollama_client.py 489), including the brand names. -/
def brand_keywords : List String :=
  ["brand", "brands", "top brands", "best brands", "which brands",
   "brand performance"] ++ BRAND_NAMES

/-- `yoy_signals` inside the brand branch (ollama_client.py 495). -/
def yoy_signals_brand : List String :=
  ["year over year", "yoy", "grew", "growth rate",
   "vs last year", "compared to last year",
   "2023 vs 2024", "change over time",
   "decline", "declining", "fell", "dropped",
   "decreased", "worst performing", "underperforming",
   "driving the", "causing the", "behind the"]

/-- `overview_kw` (ollama_client.py 508). -/
def overview_kw : List String :=
  ["overall", "overview", "scorecard", "dashboard",
   "health", "kpi", "summarize everything",
   "how is the business"]

/-- `waterfall_kw` (ollama_client.py 515). -/
def waterfall_kw : List String :=
  ["waterfall", "what drove", "why did margin",
   "margins change", "decomposition", "break down",
   "margin change", "contributed to"]

/-- `region_analysis_kw` (ollama_client.py 522; the same literal list is
repeated inside `extract_missing_filters` at line 661). -/
def region_analysis_kw : List String :=
  ["which region", "region has", "region with", "regions performing",
   "regional performance", "regional growth", "regional opportunity",
   "best region", "worst region", "region growing",
   "growth opportunity", "most opportunity", "where should we invest",
   "region comparison", "how are regions"]

/-- `bcg_kw` (ollama_client.py 533). -/
def bcg_kw : List String :=
  ["stars", "dogs", "cash cow", "bcg", "quadrant",
   "growth margin matrix", "portfolio strategy"]

/-- `elasticity_kw` (ollama_client.py 539). -/
def elasticity_kw : List String :=
  ["elasticity", "price sensitive", "raise prices",
   "demand sensitivity", "impact of price change"]

/-- `season_kw` (ollama_client.py 545). -/
def season_kw : List String :=
  ["season", "seasonal", "monthly", "quarterly",
   "peak", "which month", "which quarter", "time trend"]

/-- `store_kw` (ollama_client.py 551). -/
def store_kw : List String :=
  ["store", "stores", "location", "locations",
   "underperforming", "top stores", "bottom stores",
   "store size"]

/-- `mix_kw` (ollama_client.py 558). -/
def mix_kw : List String :=
  ["mix", "percentage", "proportion", "portfolio balance",
   "revenue mix", "each division represent"]

/-- `yoy_signals` inside the mix branch (ollama_client.py 562). -/
def yoy_signals_mix : List String :=
  ["year over year", "yoy", "grew", "growth",
   "vs last year", "change"]

/-- `forecast_kw` (ollama_client.py 568). -/
def forecast_kw : List String :=
  ["project", "forecast", "2025", "future",
   "trajectory", "predict", "next year",
   "going forward"]

/-- `anomaly_kw` (ollama_client.py 575). -/
def anomaly_kw : List String :=
  ["anomal", "outlier", "unusual", "anything off",
   "flag", "weird", "unexpected", "looks off",
   "strange"]

/-- `price_kw` (ollama_client.py 582). -/
def price_kw : List String :=
  ["pricing", "sweet spot", "price vs margin",
   "price point", "price sensitivity",
   "price volume", "price relationship"]

/-- `bench_kw` (ollama_client.py 589). -/
def bench_kw : List String :=
  ["who owns", "brand dominance", "head-to-head",
   "benchmarking", "which brand leads",
   "compare brands", "brand vs"]

/-- `yoy_kw`, the final explicit check (ollama_client.py 596). -/
def yoy_kw : List String :=
  ["year over year", "yoy", "grew", "growth rate",
   "vs last year", "compared to last year",
   "2023 vs 2024", "change over time", "perform last year"]

/-- `validate_routing(question, llm_tool)` (ollama_client.py 466-603):
the keyword safety net that overrides the classifier tool choice, checking
keyword groups in a fixed priority order on the lowercased question and
falling back to the classifier's tool when nothing matches.  The mix branch
mirrors the source exactly: `division_mix` is returned only when a mix
keyword matches and no YoY signal does; otherwise control falls through to
the later groups. -/
def validate_routing (question : String) (llm_tool : String) : String :=
  if anyKw (lowerStr question) out_of_scope_kw then "out_of_scope"
  else if anyKw (lowerStr question) brand_keywords then
    (if anyKw (lowerStr question) yoy_signals_brand then "yoy_comparison"
     else "brand_region_crosstab")
  else if anyKw (lowerStr question) overview_kw then "kpi_scorecard"
  else if anyKw (lowerStr question) waterfall_kw then "margin_waterfall"
  else if anyKw (lowerStr question) region_analysis_kw then "yoy_comparison"
  else if anyKw (lowerStr question) bcg_kw then "growth_margin_matrix"
  else if anyKw (lowerStr question) elasticity_kw then "price_elasticity"
  else if anyKw (lowerStr question) season_kw then "seasonality_trends"
  else if anyKw (lowerStr question) store_kw then "store_performance"
  else if anyKw (lowerStr question) mix_kw &&
          !anyKw (lowerStr question) yoy_signals_mix then "division_mix"
  else if anyKw (lowerStr question) forecast_kw then "forecast_trendline"
  else if anyKw (lowerStr question) anomaly_kw then "anomaly_detection"
  else if anyKw (lowerStr question) price_kw then "price_volume_margin"
  else if anyKw (lowerStr question) bench_kw then "brand_benchmarking"
  else if anyKw (lowerStr question) yoy_kw then "yoy_comparison"
  else llm_tool

/-! ## Python values in filter dictionaries -/

/-- A Python value as it occurs in the routing filter dictionaries:
`None`, a string, an int, or a bool. -/
inductive PyVal where
  | pynull
  | pystr (s : String)
  | pyint (n : Int)
  | pybool (b : Bool)
  deriving DecidableEq, Repr

/-- Python truthiness of a `PyVal` (`bool(v)`). -/
def truthy : PyVal → Bool
  | .pynull => false
  | .pystr s => s ≠ ""
  | .pyint n => n ≠ 0
  | .pybool b => b

/-- Python `str(v)`. -/
def pyStrOf : PyVal → String
  | .pynull => "None"
  | .pystr s => s
  | .pyint n => toString n
  | .pybool b => if b then "True" else "False"

/-- The guard `not filters.get(k) or str(filters[k]).lower() in
("null", "none")` shared by every block of `extract_missing_filters`
(ollama_client.py 619 etc.): the key counts as unset when its value is
falsy or its string form lowercases to a null sentinel. -/
def isUnsetF (v : PyVal) : Bool :=
  !truthy v || (lowerStr (pyStrOf v) == "null" || lowerStr (pyStrOf v) == "none")

/-! ## The filter record of `extract_missing_filters`

`extract_missing_filters` reads and writes the eleven recognized filter
keys; a missing key and a key holding `None` behave identically in every
access the function performs (`filters.get(k)`, `filters.get(k, "")` only
compared against non-empty strings), so the dictionary is modelled as a
record with one `PyVal` field per recognized key, `pynull` standing for
missing-or-None.  Unrecognized keys are copied verbatim by the source and
are not modelled. -/

structure Filters where
  region : PyVal
  division : PyVal
  category : PyVal
  brand : PyVal
  metric : PyVal
  group_by : PyVal
  group_value : PyVal
  time_grain : PyVal
  top_n : PyVal
  view : PyVal
  year : PyVal
  deriving DecidableEq, Repr

/-- The all-unset filter record (an empty Python dict). -/
def emptyFilters : Filters :=
  ⟨.pynull, .pynull, .pynull, .pynull, .pynull, .pynull,
   .pynull, .pynull, .pynull, .pynull, .pynull⟩

/-! ## Controlled vocabulary (ollama_client.py 452-463) -/

/-- `_REGIONS`. -/
def REGIONS : List String := ["East", "West", "North", "South"]

/-- `_DIVISIONS`. -/
def DIVISIONS : List String := ["Apparel", "Tools", "Sports", "Gardening", "Food"]

/-- `_CATEGORIES`. -/
def CATEGORIES : List String :=
  ["Shirts", "Shoes", "Power Tools", "Team Sports", "Decor",
   "Beverages", "Plants", "Pantry", "Snacks", "Safety Gear",
   "Garden Tools", "Fitness"]

/-- `_BRANDS_TITLE`. -/
def BRANDS_TITLE : List String :=
  ["Novex", "Vetra", "Trion", "Zentra", "Dexon",
   "Fynix", "Kryta", "Lumix", "Quanta", "Solvo"]

/-! ## The backfill blocks of `extract_missing_filters` -/

/-- One dimension block (region / division / category / brand,
ollama_client.py 618-644): when the key is unset, set it to the first
value of the controlled list whose lowercase form occurs in the lowercased
question; otherwise leave it alone.  When nothing matches the key keeps
its original value (the source assigns only inside the loop). -/
def fillDim (vals : List String) (q : String) (v : PyVal) : PyVal :=
  if isUnsetF v then
    match vals.find? (fun s => containsSub q (lowerStr s)) with
    | some s => .pystr s
    | none => v
  else v

/-- The metric block (ollama_client.py 647-655): margin-rate phrase >
"margin" > units/volume phrases > default "sales". -/
def fillMetric (q : String) (v : PyVal) : PyVal :=
  if isUnsetF v then
    if anyKw q ["margin rate", "margin_rate"] then .pystr "margin_rate"
    else if containsSub q "margin" then .pystr "margin"
    else if anyKw q ["units", "unit sold", "units sold", "volume"] then .pystr "units"
    else .pystr "sales"
  else v

/-- The group_by block (ollama_client.py 659-684); `region` and `division`
are the dictionary's current values at this point of the scan. -/
def fillGroupBy (q : String) (region division v : PyVal) : PyVal :=
  if isUnsetF v then
    if anyKw q region_analysis_kw && !truthy region then .pystr "region"
    else if anyKw q ["brand", "brands"] then .pystr "brand"
    else if anyKw q ["category", "categories"] then .pystr "category"
    else if anyKw q ["region", "regions"] && !truthy region then .pystr "region"
    else if truthy division then .pystr "category"
    else .pystr "division"
  else v

/-- The group_value block (ollama_client.py 688-697): mirror the filter
value matching the resolved group_by, when that filter is truthy. -/
def fillGroupValue (gb region division brand category v : PyVal) : PyVal :=
  if isUnsetF v then
    if gb == .pystr "region" && truthy region then region
    else if gb == .pystr "division" && truthy division then division
    else if gb == .pystr "brand" && truthy brand then brand
    else if gb == .pystr "category" && truthy category then category
    else v
  else v

/-- The time_grain block (ollama_client.py 701-708): quarter vocabulary >
month vocabulary > leave unset. -/
def fillTimeGrain (q : String) (v : PyVal) : PyVal :=
  if isUnsetF v then
    if anyKw q ["quarter", "quarterly", "q1", "q2", "q3", "q4"] then .pystr "quarter"
    else if anyKw q ["month", "monthly", "january", "february", "march",
                     "april", "may", "june", "july", "august",
                     "september", "october", "november", "december"] then .pystr "month"
    else v
  else v

/-- Python `\s` character class (ASCII part, as produced by these
questions). -/
def isWsChar (c : Char) : Bool :=
  c == ' ' || c == '\t' || c == '\n' || c == '\r' ||
  c == Char.ofNat 11 || c == Char.ofNat 12

/-- Numeric value of a digit run. -/
def digitsToNat (ds : List Char) : Nat :=
  ds.foldl (fun a c => a * 10 + (c.toNat - 48)) 0

/-- Drop the literal `lit` from the front of `cs`, or fail. -/
def dropLit : List Char → List Char → Option (List Char)
  | [], cs => some cs
  | _ :: _, [] => none
  | l :: ls, c :: cs => if c == l then dropLit ls cs else none

/-- Match the Python regex `lit\s+(\d+)` anchored at the start of `cs`,
returning the captured number.  Backtracking inside `\s+` cannot help
(shorter whitespace runs still face a whitespace character, never a
digit), so the greedy scan is exact. -/
def matchNumAt (lit : String) (cs : List Char) : Option Nat :=
  match dropLit lit.data cs with
  | none => none
  | some rest =>
    if (rest.takeWhile isWsChar).isEmpty then none
    else
      let ds := (rest.dropWhile isWsChar).takeWhile Char.isDigit
      if ds.isEmpty then none else some (digitsToNat ds)

/-- `re.search(lit + "\s+(\d+)", q)`: leftmost match of the pattern. -/
def searchNum (lit : String) : List Char → Option Nat
  | [] => none
  | c :: cs =>
    match matchNumAt lit (c :: cs) with
    | some n => some n
    | none => searchNum lit cs

/-- The top_n block (ollama_client.py 712-722): `top N` pattern first,
then (only when "bottom" occurs) the `bottom N` pattern. -/
def fillTopN (q : String) (v : PyVal) : PyVal :=
  if isUnsetF v then
    match searchNum "top" q.data with
    | some n => .pyint n
    | none =>
      if containsSub q "bottom" then
        match searchNum "bottom" q.data with
        | some n => .pyint n
        | none => v
      else v
  else v

/-- The view block (ollama_client.py 726-732). -/
def fillView (q : String) (v : PyVal) : PyVal :=
  if isUnsetF v then
    if anyKw q ["bottom", "worst", "underperform", "lowest",
                "weakest", "lagging"] then .pystr "bottom"
    else if anyKw q ["top", "best", "highest", "leading", "strongest"] then .pystr "top"
    else v
  else v

/-- The year block (ollama_client.py 736-741). -/
def fillYear (q : String) (v : PyVal) : PyVal :=
  if isUnsetF v then
    if containsSub q "2023" then .pyint 2023
    else if containsSub q "2024" then .pyint 2024
    else v
  else v

/-- `extract_missing_filters(question, existing_filters)`
(ollama_client.py 606-743): run the eleven backfill blocks in source
order on a copy of the filter record; later blocks see the values written
by earlier ones, exactly as the Python dict is mutated in place. -/
def extract_missing_filters (question : String) (f0 : Filters) : Filters :=
  let q := lowerStr question
  let f1 := { f0 with region := fillDim REGIONS q f0.region }
  let f2 := { f1 with division := fillDim DIVISIONS q f1.division }
  let f3 := { f2 with category := fillDim CATEGORIES q f2.category }
  let f4 := { f3 with brand := fillDim BRANDS_TITLE q f3.brand }
  let f5 := { f4 with metric := fillMetric q f4.metric }
  let f6 := { f5 with group_by := fillGroupBy q f5.region f5.division f5.group_by }
  let gv7 := fillGroupValue f6.group_by f6.region f6.division f6.brand
    f6.category f6.group_value
  let f7 := { f6 with group_value := gv7 }
  let f8 := { f7 with time_grain := fillTimeGrain q f7.time_grain }
  let f9 := { f8 with top_n := fillTopN q f8.top_n }
  let f10 := { f9 with view := fillView q f9.view }
  { f10 with year := fillYear q f10.year }

/-! ## Behaviour of the backfill blocks

`fillX_skip`: a block never touches a key whose value fails its unset
guard.  `fillX_fix`: running a block twice (with the same question and the
same earlier-key values) equals running it once. -/

theorem fillDim_skip (vals : List String) (q : String) (v : PyVal)
    (h : isUnsetF v = false) : fillDim vals q v = v := by
  simp [fillDim, h]

theorem fillDim_fix (vals : List String) (q : String) (v : PyVal)
    (hvals : ∀ s ∈ vals, isUnsetF (PyVal.pystr s) = false) :
    fillDim vals q (fillDim vals q v) = fillDim vals q v := by
  cases h : isUnsetF v with
  | false => rw [fillDim_skip _ _ _ h, fillDim_skip _ _ _ h]
  | true =>
    cases hf : vals.find? (fun s => containsSub q (lowerStr s)) with
    | none =>
      have hv : fillDim vals q v = v := by simp [fillDim, h, hf]
      rw [hv]
      exact hv
    | some s =>
      have hv : fillDim vals q v = .pystr s := by simp [fillDim, h, hf]
      rw [hv, fillDim_skip _ _ _ (hvals s (List.mem_of_find?_eq_some hf))]

theorem fillMetric_skip (q : String) (v : PyVal)
    (h : isUnsetF v = false) : fillMetric q v = v := by
  simp [fillMetric, h]

theorem fillMetric_fix (q : String) (v : PyVal) :
    fillMetric q (fillMetric q v) = fillMetric q v := by
  have hout : isUnsetF (fillMetric q v) = false ∨ fillMetric q v = v := by
    unfold fillMetric
    split
    · split
      · left; decide
      · split
        · left; decide
        · split
          · left; decide
          · left; decide
    · right; rfl
  rcases hout with h | h
  · exact fillMetric_skip _ _ h
  · rw [h]; exact h

theorem fillGroupBy_skip (q : String) (region division v : PyVal)
    (h : isUnsetF v = false) : fillGroupBy q region division v = v := by
  simp [fillGroupBy, h]

theorem fillGroupBy_fix (q : String) (region division v : PyVal) :
    fillGroupBy q region division (fillGroupBy q region division v)
      = fillGroupBy q region division v := by
  have hout : isUnsetF (fillGroupBy q region division v) = false ∨
      fillGroupBy q region division v = v := by
    unfold fillGroupBy
    split
    · split
      · left; decide
      · split
        · left; decide
        · split
          · left; decide
          · split
            · left; decide
            · split
              · left; decide
              · left; decide
    · right; rfl
  rcases hout with h | h
  · exact fillGroupBy_skip _ _ _ _ h
  · rw [h]; exact h

theorem fillGroupValue_skip (gb region division brand category v : PyVal)
    (h : isUnsetF v = false) :
    fillGroupValue gb region division brand category v = v := by
  simp [fillGroupValue, h]

theorem fillGroupValue_fix (gb region division brand category v : PyVal) :
    fillGroupValue gb region division brand category
        (fillGroupValue gb region division brand category v)
      = fillGroupValue gb region division brand category v := by
  cases h : isUnsetF v with
  | false =>
    rw [fillGroupValue_skip _ _ _ _ _ _ h, fillGroupValue_skip _ _ _ _ _ _ h]
  | true =>
    by_cases c1 : (gb == PyVal.pystr "region" && truthy region) = true
    · by_cases hr : isUnsetF region = true <;>
        simp [fillGroupValue, h, c1, hr]
    · by_cases c2 : (gb == PyVal.pystr "division" && truthy division) = true
      · by_cases hd : isUnsetF division = true <;>
          simp [fillGroupValue, h, c1, c2, hd]
      · by_cases c3 : (gb == PyVal.pystr "brand" && truthy brand) = true
        · by_cases hb : isUnsetF brand = true <;>
            simp [fillGroupValue, h, c1, c2, c3, hb]
        · by_cases c4 : (gb == PyVal.pystr "category" && truthy category) = true
          · by_cases hc : isUnsetF category = true <;>
              simp [fillGroupValue, h, c1, c2, c3, c4, hc]
          · simp [fillGroupValue, h, c1, c2, c3, c4]

theorem fillTimeGrain_skip (q : String) (v : PyVal)
    (h : isUnsetF v = false) : fillTimeGrain q v = v := by
  simp [fillTimeGrain, h]

theorem fillTimeGrain_fix (q : String) (v : PyVal) :
    fillTimeGrain q (fillTimeGrain q v) = fillTimeGrain q v := by
  cases h : isUnsetF v with
  | false => rw [fillTimeGrain_skip _ _ h, fillTimeGrain_skip _ _ h]
  | true =>
    by_cases c1 : anyKw q ["quarter", "quarterly", "q1", "q2", "q3", "q4"] = true
    · simp [fillTimeGrain, h, c1]
    · by_cases c2 : anyKw q ["month", "monthly", "january", "february", "march",
        "april", "may", "june", "july", "august",
        "september", "october", "november", "december"] = true
      · simp [fillTimeGrain, h, c1, c2]
      · simp [fillTimeGrain, h, c1, c2]

theorem fillTopN_skip (q : String) (v : PyVal)
    (h : isUnsetF v = false) : fillTopN q v = v := by
  simp [fillTopN, h]

theorem fillTopN_fix (q : String) (v : PyVal) :
    fillTopN q (fillTopN q v) = fillTopN q v := by
  cases h : isUnsetF v with
  | false => rw [fillTopN_skip _ _ h, fillTopN_skip _ _ h]
  | true =>
    cases ht : searchNum "top" q.data with
    | some n =>
      by_cases h2 : isUnsetF (PyVal.pyint n) = true <;> simp [fillTopN, h, ht, h2]
    | none =>
      by_cases hb : containsSub q "bottom" = true
      · cases hbn : searchNum "bottom" q.data with
        | some n =>
          by_cases h2 : isUnsetF (PyVal.pyint n) = true <;>
            simp [fillTopN, h, ht, hb, hbn, h2]
        | none => simp [fillTopN, h, ht, hb, hbn]
      · simp [fillTopN, h, ht, hb]

theorem fillView_skip (q : String) (v : PyVal)
    (h : isUnsetF v = false) : fillView q v = v := by
  simp [fillView, h]

theorem fillView_fix (q : String) (v : PyVal) :
    fillView q (fillView q v) = fillView q v := by
  cases h : isUnsetF v with
  | false => rw [fillView_skip _ _ h, fillView_skip _ _ h]
  | true =>
    by_cases c1 : anyKw q ["bottom", "worst", "underperform", "lowest",
        "weakest", "lagging"] = true
    · simp [fillView, h, c1]
    · by_cases c2 : anyKw q ["top", "best", "highest", "leading", "strongest"] = true
      · simp [fillView, h, c1, c2]
      · simp [fillView, h, c1, c2]

theorem fillYear_skip (q : String) (v : PyVal)
    (h : isUnsetF v = false) : fillYear q v = v := by
  simp [fillYear, h]

theorem fillYear_fix (q : String) (v : PyVal) :
    fillYear q (fillYear q v) = fillYear q v := by
  cases h : isUnsetF v with
  | false => rw [fillYear_skip _ _ h, fillYear_skip _ _ h]
  | true =>
    by_cases c1 : containsSub q "2023" = true
    · simp [fillYear, h, c1]
    · by_cases c2 : containsSub q "2024" = true
      · simp [fillYear, h, c1, c2]
      · simp [fillYear, h, c1, c2]

/-! ## IEEE-style floats

The aggregation claims depend on NaN and infinity behaviour (pandas
division by zero, `.std()` of a single value, `.fillna(0)`), never on
rounding, so a float is modelled as an exact rational extended with the
three non-finite values.  Arithmetic propagates NaN, comparisons with NaN
are false, and `x/0` follows IEEE (`0/0 = NaN`, `x/0 = ±inf`).  Signed
zero is not modelled (no claim distinguishes `0.0` from `-0.0`). -/

inductive PF where
  | val (q : ℚ)
  | nan
  | inf
  | ninf
  deriving DecidableEq, Repr

/-- Float negation. -/
def pfNeg : PF → PF
  | .val q => .val (-q)
  | .nan => .nan
  | .inf => .ninf
  | .ninf => .inf

/-- Float addition. -/
def pfAdd : PF → PF → PF
  | .nan, _ => .nan
  | _, .nan => .nan
  | .val a, .val b => .val (a + b)
  | .inf, .ninf => .nan
  | .ninf, .inf => .nan
  | .inf, _ => .inf
  | _, .inf => .inf
  | .ninf, _ => .ninf
  | _, .ninf => .ninf

/-- Float subtraction. -/
def pfSub (a b : PF) : PF := pfAdd a (pfNeg b)

/-- Float multiplication. -/
def pfMul : PF → PF → PF
  | .nan, _ => .nan
  | _, .nan => .nan
  | .val a, .val b => .val (a * b)
  | .inf, .inf => .inf
  | .inf, .ninf => .ninf
  | .ninf, .inf => .ninf
  | .ninf, .ninf => .inf
  | .inf, .val b => if b = 0 then .nan else if 0 < b then .inf else .ninf
  | .val a, .inf => if a = 0 then .nan else if 0 < a then .inf else .ninf
  | .ninf, .val b => if b = 0 then .nan else if 0 < b then .ninf else .inf
  | .val a, .ninf => if a = 0 then .nan else if 0 < a then .ninf else .inf

/-- Float division (IEEE: `0/0 = NaN`, `x/0 = ±inf` for `x ≠ 0`). -/
def pfDiv : PF → PF → PF
  | .nan, _ => .nan
  | _, .nan => .nan
  | .val a, .val b =>
    if b = 0 then (if a = 0 then .nan else if 0 < a then .inf else .ninf)
    else .val (a / b)
  | .val _, .inf => .val 0
  | .val _, .ninf => .val 0
  | .inf, .val b => if b < 0 then .ninf else .inf
  | .ninf, .val b => if b < 0 then .inf else .ninf
  | .inf, _ => .nan
  | .ninf, _ => .nan

/-- Float absolute value. -/
def pfAbs : PF → PF
  | .val q => .val |q|
  | .nan => .nan
  | .inf => .inf
  | .ninf => .inf

/-- IEEE `==`: false whenever either side is NaN. -/
def pfEq : PF → PF → Bool
  | .val a, .val b => a == b
  | .inf, .inf => true
  | .ninf, .ninf => true
  | _, _ => false

/-- IEEE `>`: false whenever either side is NaN. -/
def pfGt : PF → PF → Bool
  | .nan, _ => false
  | _, .nan => false
  | .val a, .val b => b < a
  | .inf, .inf => false
  | .inf, _ => true
  | .ninf, _ => false
  | .val _, .ninf => true
  | .val _, .inf => false

/-- IEEE `>=`. -/
def pfGe (a b : PF) : Bool := pfGt a b || pfEq a b

/-- pandas `.fillna(0)`: replaces NaN (only NaN — infinities survive). -/
def pfFillna0 : PF → PF
  | .nan => .val 0
  | x => x

/-- Is the value not NaN (pandas `skipna` filter)? -/
def notNan : PF → Bool
  | .nan => false
  | _ => true

/-- Sum of a float column. -/
def pfSum (xs : List PF) : PF := xs.foldl pfAdd (.val 0)

/-- pandas `Series.mean()` (NaN entries skipped; empty mean is NaN via
`0/0`). -/
def seriesMean (xs : List PF) : PF :=
  let vs := xs.filter notNan
  pfDiv (pfSum vs) (.val vs.length)

/-- Exact square root of a rational when it is a perfect square, the
integer-square-root approximation otherwise.  Only the zero-variance case
(where it is exact) and the NaN branch of `seriesStd` are reachable in the
claims below. -/
def ratSqrt (q : ℚ) : ℚ := (Int.sqrt q.num : ℚ) / (Nat.sqrt q.den : ℚ)

/-- Float square root: NaN for negative or NaN input. -/
def pfSqrt : PF → PF
  | .val q => if q < 0 then .nan else .val (ratSqrt q)
  | .inf => .inf
  | _ => .nan

/-- pandas `Series.std()` (sample standard deviation, `ddof=1`): NaN when
fewer than two non-NaN values — in particular the std of a single value is
NaN, not 0. -/
def seriesStd (xs : List PF) : PF :=
  let vs := xs.filter notNan
  if vs.length ≤ 1 then .nan
  else
    let m := seriesMean xs
    let sq := pfSum (vs.map (fun x => pfMul (pfSub x m) (pfSub x m)))
    pfSqrt (pfDiv sq (.val (vs.length - 1 : Nat)))

/-! ## The dataset

One transaction row (`data_loader.py`): the base columns are exact inputs
(read from the spreadsheet), the KPI columns are derived at load time.
Base numeric columns are exact rationals; the derived `MARGIN_RATE` column
is a float because the source computes it with a float division plus
`.fillna(0)`. -/

structure Row where
  YEAR : Int
  MONTH : Int
  STORE_NAME : String
  STORE_SIZE : ℚ
  REGION : String
  BRAND : String
  PRODUCT_CATEGORY : String
  PRODUCT_DIVISION : String
  PRODUCT_NAME : String
  SELLING_PRICE_PER_UNIT : ℚ
  UNITS_SOLD : ℚ
  COST_PER_UNIT : ℚ
  deriving DecidableEq, Repr

/-- `df["SALES"] = SELLING_PRICE_PER_UNIT * UNITS_SOLD`. -/
def SALES (r : Row) : ℚ := r.SELLING_PRICE_PER_UNIT * r.UNITS_SOLD

/-- `df["COGS"] = COST_PER_UNIT * UNITS_SOLD`. -/
def COGS (r : Row) : ℚ := r.COST_PER_UNIT * r.UNITS_SOLD

/-- `df["MARGIN"] = SALES - COGS`. -/
def MARGIN (r : Row) : ℚ := SALES r - COGS r

/-- `df["MARGIN_RATE"] = (MARGIN / SALES).fillna(0)` (data_loader.py 30). -/
def MARGIN_RATE (r : Row) : PF :=
  pfFillna0 (pfDiv (.val (MARGIN r)) (.val (SALES r)))

/-- Sum of an exact column over a slice. -/
def sumBy (f : Row → ℚ) (rows : List Row) : ℚ := (rows.map f).sum

/-- The distinct keys produced by a pandas `groupby`.  pandas returns the
groups sorted by key; the claims below are insensitive to group order, so
the dedup order is not normalised. -/
def groupKeys {α : Type} [DecidableEq α] (rows : List Row) (key : Row → α) :
    List α :=
  (rows.map key).dedup

/-- The rows of one group. -/
def groupRows {α : Type} [DecidableEq α] (rows : List Row) (key : Row → α)
    (k : α) : List Row :=
  rows.filter (fun r => decide (key r = k))

/-- The shared filter block of every aggregation tool (equality filter per
truthy dimension value, applied before aggregation; the source repeats
this block verbatim in each tool).  Dimension values arrive as `PyVal`
(`if division:` is Python truthiness; a non-string truthy value matches no
row, exactly as a pandas `==` against a string column). -/
def applyDimFilters (division region category brand : PyVal)
    (df : List Row) : List Row :=
  let f1 := if truthy division then
      df.filter (fun r => PyVal.pystr r.PRODUCT_DIVISION == division) else df
  let f2 := if truthy region then
      f1.filter (fun r => PyVal.pystr r.REGION == region) else f1
  let f3 := if truthy category then
      f2.filter (fun r => PyVal.pystr r.PRODUCT_CATEGORY == category) else f2
  if truthy brand then
    f3.filter (fun r => PyVal.pystr r.BRAND == brand) else f3

/-- Number of distinct years in a slice. -/
def distinctYearCount (rows : List Row) : Nat :=
  ((rows.map Row.YEAR).dedup).length

/-! ## Small Python string / number helpers used by the tools -/

/-- `s.replace("_", " ")`. -/
def replaceUS (s : String) : String :=
  ⟨s.data.map (fun c => if c == '_' then ' ' else c)⟩

/-- Word-wise capitalisation for `.title()` (space boundaries; the metric
labels this is applied to contain only letters and spaces). -/
def titleWords : Bool → List Char → List Char
  | _, [] => []
  | atStart, c :: cs =>
    if c == ' ' then c :: titleWords true cs
    else (if atStart then c.toUpper else c.toLower) :: titleWords false cs

/-- Python `s.title()`. -/
def pyTitle (s : String) : String := ⟨titleWords true s.data⟩

/-- `metric.replace("_", " ").title()`, the metric label each tool
computes. -/
def metricLabel (m : String) : String := pyTitle (replaceUS m)

/-- Round to the nearest integer, ties to even (Python `round`).  Python
rounds the binary float representation; the difference is immaterial to
every claim below (no claim inspects a rounded digit). -/
def roundHalfEvenInt (q : ℚ) : Int :=
  let f : Int := ⌊q⌋
  let r : ℚ := q - f
  if r < 1/2 then f
  else if 1/2 < r then f + 1
  else if Even f then f else f + 1

/-- Python `round(q, d)`. -/
def pyRound (d : Nat) (q : ℚ) : ℚ :=
  (roundHalfEvenInt (q * (10 : ℚ) ^ d) : ℚ) / (10 : ℚ) ^ d

/-- `round` lifted to floats for the matrix margin-rate column.  (Python
`round` raises on an infinite float; that path is unreachable in the
claims proved here and is modelled as the identity.) -/
def pfRound1 : PF → PF
  | .val q => .val (pyRound 1 q)
  | x => x

/-- `"%.1f"` formatting of a z-score (sign, integer part, one decimal). -/
def fmt1 : PF → String
  | .val q =>
    let n := roundHalfEvenInt (q * 10)
    (if n < 0 then "-" else "") ++ toString (n.natAbs / 10) ++ "." ++
      toString (n.natAbs % 10)
  | .nan => "nan"
  | .inf => "inf"
  | .ninf => "-inf"

/-- Mean of an exact column (groups are non-empty wherever this is
applied, so the `0/0 = 0` convention of rational division is never
exercised). -/
def qMean (xs : List ℚ) : ℚ := xs.sum / (xs.length : ℚ)

/-- pandas median of an exact column. -/
def qMedian (xs : List ℚ) : ℚ :=
  let s := List.insertionSort (fun a b : ℚ => a ≤ b) xs
  let n := s.length
  if n % 2 = 1 then s.getD (n / 2) 0
  else (s.getD (n / 2 - 1) 0 + s.getD (n / 2) 0) / 2

/-- IEEE `<=` as a Bool. -/
def pfLeB (a b : PF) : Bool := pfGt b a || pfEq a b

/-- pandas median of a float column (NaN skipped). -/
def pfMedian (xs : List PF) : PF :=
  let vs := List.insertionSort (fun a b => pfLeB a b = true) (xs.filter notNan)
  let n := vs.length
  if n = 0 then .nan
  else if n % 2 = 1 then vs.getD (n / 2) .nan
  else pfDiv (pfAdd (vs.getD (n / 2 - 1) .nan) (vs.getD (n / 2) .nan)) (.val 2)

/-! ## Tool 1 — `yoy_comparison` (tools/yoy_comparison.py)

The chart is outside the modelled scope (spec §1); the model returns the
summary table: the year-pivot of the aggregated metric with the
`Change` / `Change %` columns appended exactly when both 2023 and 2024
appear among the pivot's year columns. -/

/-- `metric_col_map.get(metric, "SALES")` for the plain-sum metrics
(the `margin_rate` branch never reads the column). -/
def metricColQ (metric : String) : Row → ℚ :=
  if metric == "margin" then MARGIN
  else if metric == "units" then Row.UNITS_SOLD
  else SALES

/-- `group_col_map.get(group_by.lower(), "PRODUCT_DIVISION")`. -/
def groupColOf (group_by : String) : Row → String := fun r =>
  if lowerStr group_by == "region" then r.REGION
  else if lowerStr group_by == "brand" then r.BRAND
  else if lowerStr group_by == "category" then r.PRODUCT_CATEGORY
  else r.PRODUCT_DIVISION

/-- The aggregated value of one (YEAR, group) slice in `yoy_comparison`
(lines 73-86): for `margin_rate` recompute
`(sum MARGIN / sum SALES).fillna(0)`, otherwise sum the metric column. -/
def yoyAggVal (metric : String) (grp : List Row) : PF :=
  if metric == "margin_rate" then
    pfFillna0 (pfDiv (.val (sumBy MARGIN grp)) (.val (sumBy SALES grp)))
  else .val (sumBy (metricColQ metric) grp)

/-- The aggregation step of `yoy_comparison`: group by (YEAR, group
column) and apply `yoyAggVal` per group. -/
def yoyAgg (metric : String) (gcol : Row → String) (rows : List Row) :
    List ((Int × String) × PF) :=
  (groupKeys rows (fun r => (r.YEAR, gcol r))).map (fun k =>
    (k, yoyAggVal metric (groupRows rows (fun r => (r.YEAR, gcol r)) k)))

/-- `sorted(agg["YEAR"].unique().tolist())`, shared by the two tools that
guard on the number of distinct years. -/
def toolYears {α : Type} (recs : List α) (year : α → Int) : List Int :=
  List.insertionSort (fun a b : Int => a ≤ b) ((recs.map year).dedup)

/-- The summary table `yoy_comparison` returns: a group-by-year pivot
(missing combinations filled with 0), plus `Change` / `Change %` columns
exactly when both 2023 and 2024 are present. -/
structure YoySummary where
  yearCols : List Int
  rows : List (String × List PF)
  hasChange : Bool
  changeRows : List (String × PF × PF)
  deriving DecidableEq, Repr

/-- `pivot(...).fillna(0)` cell lookup. -/
def pivotLookup (agg : List ((Int × String) × PF)) (y : Int) (g : String) : PF :=
  match agg.find? (fun kv => decide (kv.1 = (y, g))) with
  | some kv => kv.2
  | none => .val 0

/-- `yoy_comparison(df, group_by, metric, division, region, category,
brand)` (lines 15-123), modelled up to its returned summary table. -/
def yoy_comparison (df : List Row) (group_by metric : String)
    (division region category brand : PyVal) : YoySummary :=
  let filtered := applyDimFilters division region category brand df
  let agg := yoyAgg metric (groupColOf group_by) filtered
  let years := (agg.map (fun kv => kv.1.1)).dedup
  let groups := (agg.map (fun kv => kv.1.2)).dedup
  let hasChange := decide ((2023 : Int) ∈ years) && decide ((2024 : Int) ∈ years)
  { yearCols := years
    rows := groups.map (fun g => (g, years.map (fun y => pivotLookup agg y g)))
    hasChange := hasChange
    changeRows :=
      if hasChange then
        groups.map (fun g =>
          let v23 := pivotLookup agg 2023 g
          let v24 := pivotLookup agg 2024 g
          let ch := pfSub v24 v23
          let denom := if pfEq v23 (.val 0) then PF.nan else v23
          (g, ch, pfFillna0 (pfMul (pfDiv ch denom) (.val 100))))
      else [] }

/-! ## Tool 4 — `anomaly_detection` (tools/anomaly_detection.py) -/

/-- The product-level aggregated metric value (lines 47-63):
`margin_rate` is recomputed from group sums with `.fillna(0)`; `sales` and
`margin` are plain sums; any other metric falls back to the default column
`MARGIN_RATE`, whose float values are summed. -/
def anomalyColVal (metric : String) (grp : List Row) : PF :=
  if metric == "margin_rate" then
    pfFillna0 (pfDiv (.val (sumBy MARGIN grp)) (.val (sumBy SALES grp)))
  else if metric == "sales" then .val (sumBy SALES grp)
  else if metric == "margin" then .val (sumBy MARGIN grp)
  else pfSum (grp.map MARGIN_RATE)

/-- Product-level aggregation of `anomaly_detection`, keyed by
(PRODUCT_NAME, PRODUCT_CATEGORY, PRODUCT_DIVISION). -/
def anomalyProductAgg (metric : String) (rows : List Row) :
    List ((String × String × String) × PF) :=
  (groupKeys rows
      (fun r => (r.PRODUCT_NAME, r.PRODUCT_CATEGORY, r.PRODUCT_DIVISION))).map
    (fun k => (k,
      anomalyColVal metric
        (groupRows rows
          (fun r => (r.PRODUCT_NAME, r.PRODUCT_CATEGORY, r.PRODUCT_DIVISION)) k)))

/-- One row of the outlier table (`dvn` is the PRODUCT_DIVISION column). -/
structure OutlierRec where
  name : String
  cat : String
  dvn : String
  value : PF
  z : PF
  deriving DecidableEq, Repr

/-- `anomaly_detection(df, metric, division, region)` (lines 14-111),
modelled up to its (outlier table, callouts) return values.  The tool
filters on division and region only; z-scores use the series mean/std with
the `std == 0` guard of lines 66-71, outliers are `|z| > 2`, sorted by
descending `|z|`, and the callouts quote the top five (or the fixed
no-outlier sentence when none are flagged). -/
def anomaly_detection (df : List Row) (metric : String)
    (division region : PyVal) : List OutlierRec × List String :=
  let filtered := applyDimFilters division region .pynull .pynull df
  let agg := anomalyProductAgg metric filtered
  let vals := agg.map (fun kv => kv.2)
  let mean := seriesMean vals
  let std := seriesStd vals
  let recs : List OutlierRec := agg.map (fun kv =>
    { name := kv.1.1, cat := kv.1.2.1, dvn := kv.1.2.2, value := kv.2,
      z := if pfEq std (.val 0) then PF.val 0 else pfDiv (pfSub kv.2 mean) std })
  let outliers := recs.filter (fun o => pfGt (pfAbs o.z) (.val 2))
  let sorted := List.insertionSort
    (fun a b : OutlierRec => pfGe (pfAbs a.z) (pfAbs b.z) = true) outliers
  let callouts := (sorted.take 5).map (fun o =>
    "**" ++ o.name ++ "** (" ++ o.cat ++ ") has " ++
    (if pfGt o.z (.val 0) then "unusually high" else "unusually low") ++ " " ++
    lowerStr (metricLabel metric) ++ " (z-score: " ++ fmt1 o.z ++ ").")
  (sorted,
   if callouts.isEmpty then
     ["No significant outliers detected in this data slice."]
   else callouts)

/-! ## Tool 13 — `growth_margin_matrix` (tools/growth_margin_matrix.py) -/

/-- One (YEAR, group) record of the matrix aggregation. -/
structure GmmAggRec where
  year : Int
  group : String
  sales : ℚ
  margin : ℚ
  deriving DecidableEq, Repr

/-- One row of the matrix summary table. -/
structure GmmRow where
  group : String
  salesEnd : ℚ
  marginRate : PF
  growth : ℚ
  quadrant : String
  deriving DecidableEq, Repr

/-- The tool's result: `annot` is the text of the annotation the source
attaches to the placeholder figure on the insufficient-data paths (none on
the normal path); `table` is the returned summary DataFrame. -/
structure GmmOut where
  annot : Option String
  table : List GmmRow
  deriving DecidableEq, Repr

/-- The (YEAR, group) sales/margin aggregation of the matrix tool
(lines 62-70). -/
def gmmAgg (gcol : Row → String) (rows : List Row) : List GmmAggRec :=
  (groupKeys rows (fun r => (r.YEAR, gcol r))).map (fun k =>
    { year := k.1, group := k.2,
      sales := sumBy SALES (groupRows rows (fun r => (r.YEAR, gcol r)) k),
      margin := sumBy MARGIN (groupRows rows (fun r => (r.YEAR, gcol r)) k) })

/-- `growth_margin_matrix(df, group_by, division, region, category,
brand)` (lines 16-202).  `group_by` arrives as the raw routed value
(`group_col_map.get(group_by, ...)` — no lowercasing here); fewer than two
distinct years in the aggregated slice returns the annotated empty
placeholder of lines 73-77. -/
def growth_margin_matrix (df : List Row) (group_by : PyVal)
    (division region category brand : PyVal) : GmmOut :=
  let gcol := fun r : Row =>
    if group_by == PyVal.pystr "category" then r.PRODUCT_CATEGORY
    else r.PRODUCT_DIVISION
  let filtered := applyDimFilters division region category brand df
  let agg := gmmAgg gcol filtered
  let years := toolYears agg GmmAggRec.year
  if years.length < 2 then
    { annot := some "Need 2 years of data for growth-margin analysis",
      table := [] }
  else
    let yrStart := years.head?.getD 0
    let yrEnd := years.getLast?.getD 0
    let groups := (agg.map GmmAggRec.group).dedup
    let recs : List GmmRow := groups.filterMap (fun g =>
      match agg.find? (fun t => t.year == yrStart && t.group == g),
            agg.find? (fun t => t.year == yrEnd && t.group == g) with
      | some d1, some d2 =>
        let mr2 := pfMul (pfFillna0 (pfDiv (.val d2.margin) (.val d2.sales)))
          (.val 100)
        let growth : ℚ :=
          if 0 < d1.sales then (d2.sales - d1.sales) / d1.sales * 100 else 0
        some { group := g, salesEnd := d2.sales, marginRate := pfRound1 mr2,
               growth := pyRound 1 growth, quadrant := "" }
      | _, _ => none)
    if recs.isEmpty then
      { annot := some "Not enough data for matrix", table := [] }
    else
      let medG := qMedian (recs.map GmmRow.growth)
      let medM := pfMedian (recs.map GmmRow.marginRate)
      let classified := recs.map (fun t =>
        let hg := decide (medG ≤ t.growth)
        let hm := pfGe t.marginRate medM
        { t with quadrant :=
            if hg && hm then "Stars"
            else if !hg && hm then "Cash Cows"
            else if hg && !hm then "Question Marks"
            else "Dogs" })
      { annot := none
        table := List.insertionSort
          (fun a b : GmmRow => a.quadrant ≤ b.quadrant) classified }

/-! ## Tool 11 — `price_elasticity` (tools/price_elasticity.py) -/

/-- One (YEAR, group) record of the yearly aggregation. -/
structure YearlyRec where
  year : Int
  group : String
  avgPrice : ℚ
  units : ℚ
  sales : ℚ
  margin : ℚ
  deriving DecidableEq, Repr

/-- One elasticity record (the fields the scenario table consumes). -/
structure ElasRec where
  group : String
  elasticity : ℚ
  salesEnd : ℚ
  marginEnd : ℚ
  deriving DecidableEq, Repr

/-- One row of the scenario table. -/
structure ScenRow where
  group : String
  elasticity : ℚ
  priceChange : ℚ
  unitsChange : ℚ
  revImpact : ℚ
  projRevenue : ℚ
  deriving DecidableEq, Repr

/-- The tool's result, as for `growth_margin_matrix`.  The cross-sectional
log-log regression (lines 117-131) only feeds a chart annotation, never
the returned table, and charts are outside the modelled scope. -/
structure ElasOut where
  annot : Option String
  table : List ScenRow
  deriving DecidableEq, Repr

/-- The per-year aggregation of the elasticity tool (lines 60-69). -/
def elasticityYearly (gcol : Row → String) (rows : List Row) :
    List YearlyRec :=
  (groupKeys rows (fun r => (r.YEAR, gcol r))).map (fun k =>
    let grp := groupRows rows (fun r => (r.YEAR, gcol r)) k
    { year := k.1, group := k.2,
      avgPrice := qMean (grp.map Row.SELLING_PRICE_PER_UNIT),
      units := sumBy Row.UNITS_SOLD grp,
      sales := sumBy SALES grp, margin := sumBy MARGIN grp })

/-- `price_elasticity(df, division, region, category, brand)`
(lines 18-197): arc elasticity per group between the first and last year,
elasticity forced to 0 when `|%Δprice| <= 0.5`; fewer than two distinct
years returns the annotated empty placeholder of lines 72-77. -/
def price_elasticity (df : List Row)
    (division region category brand : PyVal) : ElasOut :=
  let filtered := applyDimFilters division region category brand df
  let gcol := fun r : Row =>
    if truthy category then r.PRODUCT_NAME else r.PRODUCT_CATEGORY
  let yearly := elasticityYearly gcol filtered
  let years := toolYears yearly YearlyRec.year
  if years.length < 2 then
    { annot := some "Need 2 years of data to estimate elasticity",
      table := [] }
  else
    let yrStart := years.head?.getD 0
    let yrEnd := years.getLast?.getD 0
    let groups := (yearly.map YearlyRec.group).dedup
    let elas : List ElasRec := groups.filterMap (fun g =>
      match yearly.find? (fun t => t.year == yrStart && t.group == g),
            yearly.find? (fun t => t.year == yrEnd && t.group == g) with
      | some d1, some d2 =>
        let pctDp := if 0 < d1.avgPrice then
            (d2.avgPrice - d1.avgPrice) / d1.avgPrice * 100 else 0
        let pctDq := if 0 < d1.units then
            (d2.units - d1.units) / d1.units * 100 else 0
        let e := if 1/2 < |pctDp| then pctDq / pctDp else 0
        some { group := g, elasticity := pyRound 2 e,
               salesEnd := d2.sales, marginEnd := d2.margin }
      | _, _ => none)
    if elas.isEmpty then
      { annot := some "Not enough data for elasticity estimation",
        table := [] }
    else
      let sortedE := List.insertionSort
        (fun a b : ElasRec => a.elasticity ≤ b.elasticity) elas
      { annot := none
        table := sortedE.flatMap (fun t =>
          [(-15 : ℚ), -10, -5, 5, 10, 15].map (fun pct =>
            let projUnit := t.elasticity * pct
            let mult := (1 + pct / 100) * (1 + projUnit / 100)
            { group := t.group, elasticity := t.elasticity,
              priceChange := pct, unitsChange := pyRound 1 projUnit,
              revImpact := pyRound 1 ((mult - 1) * 100),
              projRevenue := pyRound 0 (t.salesEnd * mult) })) }

/-! ## Claims C7 and C8: backfill preserves set keys, and is idempotent -/

/-- The eleven recognized filter keys. -/
inductive FKey where
  | region | division | category | brand | metric | group_by
  | group_value | time_grain | top_n | view | year
  deriving DecidableEq, Repr

/-- Field access by key. -/
def getF (f : Filters) : FKey → PyVal
  | .region => f.region
  | .division => f.division
  | .category => f.category
  | .brand => f.brand
  | .metric => f.metric
  | .group_by => f.group_by
  | .group_value => f.group_value
  | .time_grain => f.time_grain
  | .top_n => f.top_n
  | .view => f.view
  | .year => f.year

/-- C7 (amended): a recognized filter key whose value fails the code's
unset test — i.e. is Python-truthy and does not lowercase to "null" or
"none" — is returned by `extract_missing_filters` unchanged.  (The
original claim said "non-null, non-sentinel"; Python-falsy values such as
the integer 0 are also overwritten, see the counterexample.) -/
theorem extract_missing_filters_keeps_set_keys
    (question : String) (f : Filters) (k : FKey)
    (h : isUnsetF (getF f k) = false) :
    getF (extract_missing_filters question f) k = getF f k := by
  obtain ⟨r, d, c, b, m, gb, gv, tg, tn, vw, yr⟩ := f
  cases k with
  | region => exact fillDim_skip _ _ _ h
  | division => exact fillDim_skip _ _ _ h
  | category => exact fillDim_skip _ _ _ h
  | brand => exact fillDim_skip _ _ _ h
  | metric => exact fillMetric_skip _ _ h
  | group_by => exact fillGroupBy_skip _ _ _ _ h
  | group_value => exact fillGroupValue_skip _ _ _ _ _ _ h
  | time_grain => exact fillTimeGrain_skip _ _ h
  | top_n => exact fillTopN_skip _ _ h
  | view => exact fillView_skip _ _ h
  | year => exact fillYear_skip _ _ h

/-- Witness for `extract_missing_filters_keeps_set_keys`: a region the
classifier set to "East" survives a question that mentions "West". -/
theorem extract_missing_filters_keeps_set_keys_witness :
    isUnsetF (getF { emptyFilters with region := PyVal.pystr "East" } FKey.region)
        = false ∧
    getF (extract_missing_filters "how did the West do"
          { emptyFilters with region := PyVal.pystr "East" }) FKey.region
      = getF { emptyFilters with region := PyVal.pystr "East" } FKey.region :=
  ⟨by decide,
   extract_missing_filters_keeps_set_keys _ _ _ (by decide)⟩

/-- C7 counterexample: `top_n = 0` is non-null and not a sentinel string,
yet the backfill overwrites it (Python truthiness treats 0 as unset): on
"show me the top 5 stores" the key comes back as 5, not 0. -/
theorem extract_missing_filters_overwrites_zero :
    (extract_missing_filters "show me the top 5 stores"
        { emptyFilters with top_n := PyVal.pyint 0 }).top_n = PyVal.pyint 5 ∧
    PyVal.pyint 0 ≠ PyVal.pynull ∧
    lowerStr (pyStrOf (PyVal.pyint 0)) ≠ "null" ∧
    lowerStr (pyStrOf (PyVal.pyint 0)) ≠ "none" ∧
    lowerStr (pyStrOf (PyVal.pyint 0)) ≠ "" := by
  refine ⟨?_, by decide, by decide, by decide, by decide⟩
  decide

/-- C8: `extract_missing_filters` is idempotent — a second pass over its
own output (same question) changes nothing.  Each block either finds its
key set to a value that fails the unset guard, or recomputes exactly the
same fill from the unchanged question and unchanged earlier keys. -/
theorem extract_missing_filters_idem (question : String) (f : Filters) :
    extract_missing_filters question (extract_missing_filters question f)
      = extract_missing_filters question f := by
  obtain ⟨r, d, c, b, m, gb, gv, tg, tn, vw, yr⟩ := f
  simp only [extract_missing_filters, Filters.mk.injEq]
  refine ⟨?_, ?_, ?_, ?_, ?_, ?_, ?_, ?_, ?_, ?_, ?_⟩
  · exact fillDim_fix _ _ _ (by decide)
  · exact fillDim_fix _ _ _ (by decide)
  · exact fillDim_fix _ _ _ (by decide)
  · exact fillDim_fix _ _ _ (by decide)
  · exact fillMetric_fix _ _
  · rw [fillDim_fix _ _ _ (by decide), fillDim_fix _ _ _ (by decide)]
    exact fillGroupBy_fix _ _ _ _
  · rw [fillDim_fix _ _ _ (by decide), fillDim_fix _ _ _ (by decide),
      fillDim_fix _ _ _ (by decide), fillDim_fix _ _ _ (by decide),
      fillGroupBy_fix]
    exact fillGroupValue_fix _ _ _ _ _ _
  · exact fillTimeGrain_fix _ _
  · exact fillTopN_fix _ _
  · exact fillView_fix _ _
  · exact fillYear_fix _ _

/-! ## Claims C1 and C2: keyword override of the tool choice -/

/-- C1 (amended): for every question containing one of the twenty
out-of-scope keyword phrases of `validate_routing`'s own list (e.g.
"average order value", "retention rate", "inventory", "competitor") and for
every classifier-proposed tool name, `validate_routing` returns
"out_of_scope": the out-of-scope group is checked first and its result does
not depend on the classifier's proposal. -/
theorem validate_routing_out_of_scope (question llm_tool : String)
    (h : anyKw (lowerStr question) out_of_scope_kw = true) :
    validate_routing question llm_tool = "out_of_scope" := by
  unfold validate_routing
  rw [h]
  rfl

/-- Witness for `validate_routing_out_of_scope` at the question
"What is the average order value?" and classifier tool
"brand_region_crosstab". -/
theorem validate_routing_out_of_scope_witness :
    anyKw (lowerStr "What is the average order value?") out_of_scope_kw = true ∧
    validate_routing "What is the average order value?" "brand_region_crosstab"
      = "out_of_scope" :=
  ⟨by decide, validate_routing_out_of_scope _ _ (by decide)⟩

/-- C1 counterexample: "customer retention", one of the phrases the claim
names as an out-of-scope keyword, is not in the code's keyword list
(the code has "retention rate" instead): the question
"What is our customer retention?" contains the phrase, yet
`validate_routing` returns the classifier's proposal unchanged rather than
"out_of_scope". -/
theorem validate_routing_customer_retention_not_oos :
    containsSub (lowerStr "What is our customer retention?")
      "customer retention" = true ∧
    validate_routing "What is our customer retention?" "kpi_scorecard"
      = "kpi_scorecard" := by
  constructor
  · decide
  · decide

/-- C2: for the question "Which brand grew the most year over year?" and
every classifier-proposed tool, `validate_routing` returns
"yoy_comparison" (and hence not "brand_region_crosstab"): the brand
keyword group matches, but the YoY signal "year over year" inside the
brand branch takes precedence. -/
theorem validate_routing_brand_yoy (llm_tool : String) :
    validate_routing "Which brand grew the most year over year?" llm_tool
        = "yoy_comparison" ∧
    validate_routing "Which brand grew the most year over year?" llm_tool
        ≠ "brand_region_crosstab" := by
  have h : validate_routing "Which brand grew the most year over year?" llm_tool
      = "yoy_comparison" := rfl
  exact ⟨h, by rw [h]; decide⟩

/-! ## Claim C4: the weighted margin rate -/

/-- A row with zero sales but non-zero cost: price 0, one unit sold,
cost 5, hence SALES = 0, MARGIN = -5. -/
def rowZeroSales : Row :=
  { YEAR := 2023, MONTH := 1, STORE_NAME := "S1", STORE_SIZE := 100,
    REGION := "East", BRAND := "Novex", PRODUCT_CATEGORY := "Shirts",
    PRODUCT_DIVISION := "Apparel", PRODUCT_NAME := "P1",
    SELLING_PRICE_PER_UNIT := 0, UNITS_SOLD := 1, COST_PER_UNIT := 5 }

/-- What the amended claim says the aggregated `margin_rate` of a slice
is: the sales-weighted quotient `sum(margin)/sum(sales)`; exactly 0 when
both sums are zero (the `0/0 = NaN` is filled by `.fillna(0)`); but
positive or negative infinity when total sales is zero and total margin is
not (`.fillna(0)` does not replace infinities). -/
def marginRateSpec (grp : List Row) : PF :=
  if sumBy SALES grp = 0 then
    (if sumBy MARGIN grp = 0 then .val 0
     else if 0 < sumBy MARGIN grp then .inf else .ninf)
  else .val (sumBy MARGIN grp / sumBy SALES grp)

/-- C4 (amended): in both cited tools the aggregated `margin_rate` value
of every group is the weighted rate `sum(margin)/sum(sales)` — never a
row-wise average — and on a zero-sales slice it is exactly 0 when the
margin sum is also 0, but ±infinity (not 0) when the margin sum is
non-zero. -/
theorem margin_rate_weighted :
    (∀ grp : List Row, yoyAggVal "margin_rate" grp = marginRateSpec grp) ∧
    (∀ grp : List Row, anomalyColVal "margin_rate" grp = marginRateSpec grp) ∧
    (∀ (rows : List Row) (gcol : Row → String) (k : Int × String) (v : PF),
      (k, v) ∈ yoyAgg "margin_rate" gcol rows →
      v = marginRateSpec (groupRows rows (fun r => (r.YEAR, gcol r)) k)) := by
  have hcore : ∀ grp : List Row,
      pfFillna0 (pfDiv (.val (sumBy MARGIN grp)) (.val (sumBy SALES grp)))
        = marginRateSpec grp := by
    intro grp
    unfold marginRateSpec
    by_cases hs : sumBy SALES grp = 0
    · by_cases hm : sumBy MARGIN grp = 0
      · simp [pfDiv, pfFillna0, hs, hm]
      · by_cases hm2 : 0 < sumBy MARGIN grp
        · simp [pfDiv, pfFillna0, hs, hm, hm2]
        · simp [pfDiv, pfFillna0, hs, hm, hm2]
    · simp [pfDiv, pfFillna0, hs]
  have hyoy : ∀ grp : List Row,
      yoyAggVal "margin_rate" grp = marginRateSpec grp := by
    intro grp
    unfold yoyAggVal
    rw [if_pos (by decide)]
    exact hcore grp
  refine ⟨hyoy, ?_, ?_⟩
  · intro grp
    unfold anomalyColVal
    rw [if_pos (by decide)]
    exact hcore grp
  · intro rows gcol k v h
    unfold yoyAgg at h
    rw [List.mem_map] at h
    obtain ⟨k', _, heq⟩ := h
    obtain ⟨hk, hv⟩ := Prod.mk.injEq .. ▸ heq
    subst hk
    rw [← hv]
    exact hyoy _

/-- Witness for `margin_rate_weighted`: the membership hypothesis of its
third conjunct discharged on a concrete one-row slice. -/
theorem margin_rate_weighted_witness :
    ((((2023 : Int), "Apparel"), PF.ninf) ∈
      yoyAgg "margin_rate" (fun r => r.PRODUCT_DIVISION) [rowZeroSales]) ∧
    PF.ninf = marginRateSpec
      (groupRows [rowZeroSales]
        (fun r => (r.YEAR, r.PRODUCT_DIVISION)) (2023, "Apparel")) :=
  ⟨by norm_num [yoyAgg, yoyAggVal, groupKeys, groupRows, sumBy, SALES, MARGIN,
     COGS, rowZeroSales, pfDiv, pfFillna0],
   margin_rate_weighted.2.2 [rowZeroSales] (fun r => r.PRODUCT_DIVISION)
     (2023, "Apparel") PF.ninf
     (by norm_num [yoyAgg, yoyAggVal, groupKeys, groupRows, sumBy, SALES,
        MARGIN, COGS, rowZeroSales, pfDiv, pfFillna0])⟩

/-- C4 counterexample: on the one-row slice `rowZeroSales` total sales is
0 but total margin is -5, and both cited aggregations yield negative
infinity, not 0 (`.fillna(0)` only replaces NaN). -/
theorem margin_rate_zero_sales_infinite :
    sumBy SALES [rowZeroSales] = 0 ∧
    yoyAggVal "margin_rate" [rowZeroSales] = PF.ninf ∧
    yoyAggVal "margin_rate" [rowZeroSales] ≠ PF.val 0 ∧
    anomalyColVal "margin_rate" [rowZeroSales] = PF.ninf := by
  refine ⟨?_, ?_, ?_, ?_⟩
  · norm_num [sumBy, SALES, rowZeroSales]
  · norm_num [yoyAggVal, sumBy, SALES, MARGIN, COGS, rowZeroSales,
      pfDiv, pfFillna0]
  · norm_num [yoyAggVal, sumBy, SALES, MARGIN, COGS, rowZeroSales,
      pfDiv, pfFillna0]
    decide
  · norm_num [anomalyColVal, sumBy, SALES, MARGIN, COGS, rowZeroSales,
      pfDiv, pfFillna0]

/-! ## Claim C5: the fewer-than-two-years guard -/

/-- Deduplicating after projecting the first components of an already
deduplicated pair list leaves the same number of distinct values as
projecting directly. -/
theorem dedup_map_fst_dedup {α β : Type} [DecidableEq α] [DecidableEq β]
    (l : List (α × β)) :
    ((l.dedup.map Prod.fst).dedup).length = ((l.map Prod.fst).dedup).length := by
  apply List.Perm.length_eq
  rw [List.perm_ext_iff_of_nodup (List.nodup_dedup _) (List.nodup_dedup _)]
  intro y
  simp only [List.mem_dedup, List.mem_map]

/-- The year axis a tool computes from its (YEAR, group) aggregation has
exactly as many entries as there are distinct years in the slice. -/
theorem toolYears_length {α : Type} (rows : List Row) (g : Row → String)
    (f : (Int × String) → α) (yr : α → Int)
    (hf : ∀ k, yr (f k) = k.1) :
    (toolYears ((groupKeys rows (fun r => (r.YEAR, g r))).map f) yr).length
      = distinctYearCount rows := by
  unfold toolYears groupKeys distinctYearCount
  rw [List.length_insertionSort, List.map_map]
  have hyf : (yr ∘ f) = Prod.fst := funext hf
  rw [hyf]
  have := dedup_map_fst_dedup (rows.map (fun r => (r.YEAR, g r)))
  rw [this, List.map_map]
  rfl

/-- The matrix tool's year axis counts the distinct years of its slice. -/
theorem gmmAgg_years_length (gcol : Row → String) (rows : List Row) :
    (toolYears (gmmAgg gcol rows) GmmAggRec.year).length
      = distinctYearCount rows := by
  unfold gmmAgg
  exact toolYears_length rows gcol _ _ (fun k => rfl)

/-- The elasticity tool's year axis counts the distinct years of its
slice. -/
theorem elasticityYearly_years_length (gcol : Row → String)
    (rows : List Row) :
    (toolYears (elasticityYearly gcol rows) YearlyRec.year).length
      = distinctYearCount rows := by
  unfold elasticityYearly
  exact toolYears_length rows gcol _ _ (fun k => rfl)

/-- A list of fewer than two distinct years cannot contain both 2023 and
2024. -/
theorem bothYears_false_of_short (L : List Int) (hl : L.length < 2) :
    (decide ((2023 : Int) ∈ L) && decide ((2024 : Int) ∈ L)) = false := by
  cases h23 : decide ((2023 : Int) ∈ L) with
  | false => simp
  | true =>
    cases h24 : decide ((2024 : Int) ∈ L) with
    | false => simp [h24]
    | true =>
      exfalso
      have m23 := of_decide_eq_true h23
      have m24 := of_decide_eq_true h24
      cases L with
      | nil => simp at m23
      | cons a t =>
        cases t with
        | nil =>
          simp only [List.mem_cons, List.not_mem_nil, or_false] at m23 m24
          omega
        | cons b t2 => simp at hl; omega

/-- C5 (amended): on a filtered slice with fewer than two distinct years,
`growth_margin_matrix` and `price_elasticity` return the annotated empty
placeholder ("Need 2 years of data …", empty table) — but
`yoy_comparison` does not: it returns the plain single-year pivot (no
annotation channel exists; its table is empty only when the slice is),
merely omitting the `Change`/`Change %` columns. -/
theorem insufficient_years_behaviour (df : List Row)
    (group_by metric : String) (gbv division region category brand : PyVal)
    (h : distinctYearCount
        (applyDimFilters division region category brand df) < 2) :
    growth_margin_matrix df gbv division region category brand
        = { annot := some "Need 2 years of data for growth-margin analysis",
            table := [] } ∧
    price_elasticity df division region category brand
        = { annot := some "Need 2 years of data to estimate elasticity",
            table := [] } ∧
    (yoy_comparison df group_by metric division region category brand).hasChange
        = false := by
  refine ⟨?_, ?_, ?_⟩
  · unfold growth_margin_matrix
    simp only [gmmAgg_years_length]
    rw [if_pos h]
  · unfold price_elasticity
    simp only [elasticityYearly_years_length]
    rw [if_pos h]
  · have hyl : ((yoyAgg metric (groupColOf group_by)
        (applyDimFilters division region category brand df)).map
          (fun kv => kv.1.1)).dedup.length
        = distinctYearCount (applyDimFilters division region category brand df) := by
      unfold yoyAgg groupKeys distinctYearCount
      rw [List.map_map]
      have hcomp : ((fun kv : (Int × String) × PF => kv.1.1) ∘
          (fun k => (k, yoyAggVal metric
            (groupRows (applyDimFilters division region category brand df)
              (fun r => (r.YEAR, groupColOf group_by r)) k)))) = Prod.fst := rfl
      rw [hcomp]
      have hd := dedup_map_fst_dedup
        ((applyDimFilters division region category brand df).map
          (fun r => (r.YEAR, groupColOf group_by r)))
      rw [hd, List.map_map]
      rfl
    unfold yoy_comparison
    simp only
    exact bothYears_false_of_short _ (by rw [hyl]; exact h)

/-- Witness for `insufficient_years_behaviour` on a one-row (single-year)
dataset with no dimension filters. -/
theorem insufficient_years_behaviour_witness :
    distinctYearCount
        (applyDimFilters .pynull .pynull .pynull .pynull [rowZeroSales]) < 2 ∧
    growth_margin_matrix [rowZeroSales] (.pystr "division")
        .pynull .pynull .pynull .pynull
      = { annot := some "Need 2 years of data for growth-margin analysis",
          table := [] } ∧
    price_elasticity [rowZeroSales] .pynull .pynull .pynull .pynull
      = { annot := some "Need 2 years of data to estimate elasticity",
          table := [] } := by
  have h : distinctYearCount
      (applyDimFilters .pynull .pynull .pynull .pynull [rowZeroSales]) < 2 := by
    decide
  exact ⟨h,
    (insufficient_years_behaviour [rowZeroSales] "division" "sales"
      (.pystr "division") .pynull .pynull .pynull .pynull h).1,
    (insufficient_years_behaviour [rowZeroSales] "division" "sales"
      (.pystr "division") .pynull .pynull .pynull .pynull h).2.1⟩

/-- C5 counterexample: on a single-year slice `yoy_comparison` does not
return an empty insufficient-data placeholder — its summary table still
holds the one year of data (here one row), it merely lacks the
`Change`/`Change %` columns, and the tool has no annotation channel at
all. -/
theorem yoy_single_year_not_placeholder :
    distinctYearCount
        (applyDimFilters .pynull .pynull .pynull .pynull [rowZeroSales]) < 2 ∧
    (yoy_comparison [rowZeroSales] "division" "sales"
        .pynull .pynull .pynull .pynull).rows.length = 1 ∧
    (yoy_comparison [rowZeroSales] "division" "sales"
        .pynull .pynull .pynull .pynull).rows ≠ [] ∧
    (yoy_comparison [rowZeroSales] "division" "sales"
        .pynull .pynull .pynull .pynull).hasChange = false := by
  exact ⟨by decide, by decide, by decide, by decide⟩

/-! ## Claim C10: a single aggregated product is never flagged -/

theorem pfDiv_nan_right (a : PF) : pfDiv a PF.nan = PF.nan := by
  cases a <;> rfl

theorem pfEq_nan_left (b : PF) : pfEq PF.nan b = false := by
  cases b <;> rfl

theorem pfAbs_nan : pfAbs PF.nan = PF.nan := rfl

theorem pfGt_nan_left (b : PF) : pfGt PF.nan b = false := by
  cases b <;> rfl

/-- The sample standard deviation of a one-element series is NaN (pandas
`ddof=1`, whether or not the one value is itself NaN). -/
theorem seriesStd_single (x : PF) : seriesStd [x] = PF.nan := by
  cases hx : notNan x <;> simp [seriesStd, List.filter_cons, hx]

/-- C10: when the filtered slice aggregates to exactly one product,
`anomaly_detection` returns an empty outlier table and exactly the one
no-outliers callout, and never raises: the sample std of the single value
is NaN (so the `std == 0` guard is bypassed — NaN compares unequal to 0),
the z-score becomes NaN, and `|NaN| > 2` is false. -/
theorem anomaly_detection_single_product (df : List Row) (metric : String)
    (division region : PyVal)
    (h : (anomalyProductAgg metric
        (applyDimFilters division region .pynull .pynull df)).length = 1) :
    (anomaly_detection df metric division region).1 = [] ∧
    (anomaly_detection df metric division region).2
      = ["No significant outliers detected in this data slice."] ∧
    seriesStd ((anomalyProductAgg metric
        (applyDimFilters division region .pynull .pynull df)).map
        (fun kv => kv.2)) = PF.nan ∧
    pfEq (seriesStd ((anomalyProductAgg metric
        (applyDimFilters division region .pynull .pynull df)).map
        (fun kv => kv.2))) (PF.val 0) = false := by
  obtain ⟨kv, hkv⟩ := List.length_eq_one.mp h
  have hstd : seriesStd ((anomalyProductAgg metric
      (applyDimFilters division region .pynull .pynull df)).map
        (fun kv => kv.2)) = PF.nan := by
    rw [hkv]
    exact seriesStd_single _
  refine ⟨?_, ?_, hstd, by rw [hstd]; rfl⟩ <;>
  · simp only [anomaly_detection, hkv]
    simp [seriesStd_single, pfDiv_nan_right, pfEq_nan_left, pfAbs_nan,
      pfGt_nan_left, List.insertionSort]

/-- Rows of one product in two years, for the single-product witness. -/
def rowP1a : Row :=
  { YEAR := 2023, MONTH := 1, STORE_NAME := "S1", STORE_SIZE := 100,
    REGION := "East", BRAND := "Novex", PRODUCT_CATEGORY := "Shirts",
    PRODUCT_DIVISION := "Apparel", PRODUCT_NAME := "P1",
    SELLING_PRICE_PER_UNIT := 10, UNITS_SOLD := 2, COST_PER_UNIT := 4 }

/-- Second row of the same product (different year and volume). -/
def rowP1b : Row := { rowP1a with YEAR := 2024, UNITS_SOLD := 3 }

/-- Witness for `anomaly_detection_single_product`: two rows of the same
product aggregate to one product and produce exactly the no-outliers
callout. -/
theorem anomaly_detection_single_product_witness :
    (anomalyProductAgg "margin_rate"
        (applyDimFilters .pynull .pynull .pynull .pynull
          [rowP1a, rowP1b])).length = 1 ∧
    (anomaly_detection [rowP1a, rowP1b] "margin_rate" .pynull .pynull).1
        = [] ∧
    (anomaly_detection [rowP1a, rowP1b] "margin_rate" .pynull .pynull).2
        = ["No significant outliers detected in this data slice."] := by
  have h : (anomalyProductAgg "margin_rate"
      (applyDimFilters .pynull .pynull .pynull .pynull
        [rowP1a, rowP1b])).length = 1 := by decide
  exact ⟨h,
    (anomaly_detection_single_product [rowP1a, rowP1b] "margin_rate"
      .pynull .pynull h).1,
    (anomaly_detection_single_product [rowP1a, rowP1b] "margin_rate"
      .pynull .pynull h).2.1⟩

/-! ## The dispatch layer — `tool_router` (tools/router.py 173-337)

The dispatch is modelled at the Python level: filter values are `PyVal`s,
tool returns are value lists whose *length* is the Python tuple arity, and
the fallible steps (tuple unpacking, `int(...)`, attribute access on
`None`, keyword-argument mismatch) live in `Except String`.  The nine
tools whose aggregation no claim touches are modelled only to their return
arity; the four tools claims do touch are the typed models above. -/

/-- `v is None or (isinstance(v, str) and v.lower() in ("null", "none",
""))` (router.py 191). -/
def isNullSentinel : PyVal → Bool
  | .pynull => true
  | .pystr s => lowerStr s == "null" || lowerStr s == "none" || lowerStr s == ""
  | _ => false

/-- The normalisation loop of router.py 189-194: every null-sentinel
value becomes true `None`, every other value is forwarded unchanged. -/
def cleanFilters (fs : List (String × PyVal)) : List (String × PyVal) :=
  fs.map (fun kv => (kv.1, if isNullSentinel kv.2 then PyVal.pynull else kv.2))

/-- Python `d.get(k)` (None when absent). -/
def dGet (fs : List (String × PyVal)) (k : String) : PyVal :=
  match fs.find? (fun kv => kv.1 == k) with
  | some kv => kv.2
  | none => .pynull

/-- Python `d.get(k, default)`: the default applies only when the key is
absent — a key present with value `None` yields `None`. -/
def dGetD (fs : List (String × PyVal)) (k : String) (dflt : PyVal) : PyVal :=
  match fs.find? (fun kv => kv.1 == k) with
  | some kv => kv.2
  | none => dflt

/-- A Python value returned by a tool, abstracted to what the dispatch
layer handles: a figure, a result table, a narrative string, a callout
list, or `None`. -/
inductive RVal where
  | figv
  | tablev
  | strv (s : String)
  | listv (xs : List String)
  | nonev
  deriving DecidableEq, Repr

/-- Python tuple unpacking `a, b = e`. -/
def unpack2 (vs : List RVal) : Except String (RVal × RVal) :=
  match vs with
  | [a, b] => .ok (a, b)
  | _ => .error "ValueError: tuple unpacking arity mismatch"

/-- Python tuple unpacking `a, b, c = e`: raises ValueError unless the
tuple has exactly three elements. -/
def unpack3 (vs : List RVal) : Except String (RVal × RVal × RVal) :=
  match vs with
  | [a, b, c] => .ok (a, b, c)
  | _ => .error "ValueError: not enough values to unpack (expected 3)"

/-- Python `int(v)`: ints and bools convert, `None` raises TypeError,
strings convert when they are (possibly signed) digit runs modulo
surrounding whitespace, and raise ValueError otherwise. -/
def pyInt : PyVal → Except String Int
  | .pyint n => .ok n
  | .pybool b => .ok (if b then 1 else 0)
  | .pynull => .error "TypeError: int() argument must be a string or a number, not NoneType"
  | .pystr s =>
    let cs := (s.data.dropWhile isWsChar).reverse.dropWhile isWsChar |>.reverse
    match cs with
    | '-' :: ds =>
      if !ds.isEmpty && ds.all Char.isDigit then .ok (-(digitsToNat ds : Int))
      else .error "ValueError: invalid literal for int()"
    | '+' :: ds =>
      if !ds.isEmpty && ds.all Char.isDigit then .ok (digitsToNat ds : Int)
      else .error "ValueError: invalid literal for int()"
    | ds =>
      if !ds.isEmpty && ds.all Char.isDigit then .ok (digitsToNat ds : Int)
      else .error "ValueError: invalid literal for int()"

/-- A value a tool immediately calls a string method on (`.lower()`,
`.replace(...)`): anything but a string raises AttributeError. -/
def asPyStr : PyVal → Except String String
  | .pystr s => .ok s
  | _ => .error "AttributeError: value has no string methods"

/-- Marker for the text of `_build_yoy_brand_insight` (router.py 22-75):
pure formatting over the summary table, empty when the `Change %` column
is absent; its wording is outside every claim. -/
def yoyBrandInsightText (division metric : String) : String :=
  "yoy brand insight: " ++ division ++ " " ++ metric

/-- Marker for the text of `_build_yoy_region_insight`
(router.py 78-170), treated like `yoyBrandInsightText`. -/
def yoyRegionInsightText (metric : String) : String :=
  "yoy region insight: " ++ metric

/-- `brand_region_crosstab` modelled to its return arity `(fig, summary)`
(brand_region_crosstab.py 196); its aggregation is outside every claim. -/
def brand_region_crosstab_ret (_metric : PyVal) (_top_n : Option Int) :
    List RVal := [.figv, .tablev]

/-- `forecast_trendline` modelled to its return arity
`(fig, summary, pre_computed_insight)` (forecast_trendline.py 253). -/
def forecast_trendline_ret (_group_by _group_value _metric : PyVal) :
    List RVal := [.figv, .tablev, .strv ""]

/-- `price_volume_margin` modelled to its return arity
`(fig, agg, pre_computed_insight)` (price_volume_margin.py 150). -/
def price_volume_margin_ret : List RVal := [.figv, .tablev, .strv ""]

/-- `store_performance` modelled to its return arity `(fig, summary)`
(store_performance.py 188); it receives the call-site-converted
`top_n`. -/
def store_performance_ret (_metric : PyVal) (_top_n : Int) (_view : PyVal) :
    List RVal := [.figv, .tablev]

/-- `seasonality_trends` modelled to its return arity `(fig, summary)`
(seasonality_trends.py 145). -/
def seasonality_trends_ret (_time_grain _metric : PyVal) : List RVal :=
  [.figv, .tablev]

/-- `division_mix` modelled to its return arity `(fig, summary)`
(division_mix.py 124). -/
def division_mix_ret (_metric : PyVal) : List RVal := [.figv, .tablev]

/-- `margin_waterfall` modelled to its return arity `(fig, summary)`
(margin_waterfall.py 134). -/
def margin_waterfall_ret (_metric _group_by : PyVal) : List RVal :=
  [.figv, .tablev]

/-- `kpi_scorecard` modelled to its return arity `(fig, summary)`
(kpi_scorecard.py 197). -/
def kpi_scorecard_ret : List RVal := [.figv, .tablev]

/-- `brand_benchmarking` modelled to its return arity `(fig, summary)`
(brand_benchmarking.py 150). -/
def brand_benchmarking_ret (_metric : PyVal) : List RVal := [.figv, .tablev]

/-- `growth_margin_matrix` returns the pair `(fig, summary)` on every
path (growth_margin_matrix.py 77, 107, 202) — never three values. -/
def growth_margin_matrix_ret (_out : GmmOut) : List RVal :=
  [.figv, .tablev]

/-- `price_elasticity` returns the pair `(fig, table)` on every path
(price_elasticity.py 77, 113, 197). -/
def price_elasticity_ret (_out : ElasOut) : List RVal := [.figv, .tablev]

/-- `anomaly_detection` returns the triple `(fig, outlier_df, callouts)`
(anomaly_detection.py 111). -/
def anomaly_detection_ret (out : List OutlierRec × List String) :
    List RVal := [.figv, .tablev, .listv out.2]

/-- `tool_router(tool_name, filters, df)` (router.py 173-337): normalise
the null sentinels, then dispatch on the tool name.  Call-site `int(...)`
conversions and tuple unpacking are modelled exactly; a parameter the tool
body immediately calls a string method on goes through `asPyStr` (the
AttributeError Python would raise inside the tool).  The
`anomaly_detection` branch (lines 253-259) passes the whole
`common_filters` set as keywords, but `anomaly_detection` (lines 14-19)
accepts no `category`, `brand` or `_is_dark_mode` keyword — that call
raises TypeError before the tool body runs, on every input.  The
`growth_margin_matrix` branch (lines 326-332) unpacks three names from
the tool's two-element return — ValueError on every input.  The dark-mode
flag only styles figures and is not modelled. -/
def tool_router (tool_name : String) (filters : List (String × PyVal))
    (df : List Row) : Except String (RVal × RVal × RVal) :=
  let clean := cleanFilters filters
  let division := dGet clean "division"
  let region := dGet clean "region"
  let category := dGet clean "category"
  let brand := dGet clean "brand"
  if tool_name == "yoy_comparison" then do
    let gb ← asPyStr (dGetD clean "group_by" (.pystr "division"))
    let metric ← asPyStr (dGetD clean "metric" (.pystr "sales"))
    let summary := yoy_comparison df gb metric division region category brand
    let pre : RVal :=
      if truthy division && gb == "brand" && !summary.rows.isEmpty then
        .strv (if summary.hasChange then
          yoyBrandInsightText (pyStrOf division) metric else "")
      else if gb == "region" && !truthy division && !summary.rows.isEmpty then
        .strv (if summary.hasChange then yoyRegionInsightText metric else "")
      else .nonev
    .ok (.figv, .tablev, pre)
  else if tool_name == "brand_region_crosstab" then do
    let tn : Option Int :=
      match dGet clean "top_n" with
      | .pynull => none
      | v => match pyInt v with
             | .ok n => some n
             | .error _ => none
    let (a, b) ← unpack2
      (brand_region_crosstab_ret (dGetD clean "metric" (.pystr "sales")) tn)
    .ok (a, b, .nonev)
  else if tool_name == "forecast_trendline" then
    unpack3 (forecast_trendline_ret
      (dGetD clean "group_by" (.pystr "division"))
      (dGet clean "group_value")
      (dGetD clean "metric" (.pystr "sales")))
  else if tool_name == "anomaly_detection" then
    .error "TypeError: anomaly_detection() got an unexpected keyword argument"
  else if tool_name == "price_volume_margin" then
    unpack3 price_volume_margin_ret
  else if tool_name == "store_performance" then do
    let tn ← pyInt (dGetD clean "top_n" (.pyint 10))
    let (a, b) ← unpack2
      (store_performance_ret (dGetD clean "metric" (.pystr "sales")) tn
        (dGetD clean "view" (.pystr "top")))
    .ok (a, b, .nonev)
  else if tool_name == "seasonality_trends" then do
    let (a, b) ← unpack2
      (seasonality_trends_ret (dGetD clean "time_grain" (.pystr "month"))
        (dGetD clean "metric" (.pystr "sales")))
    .ok (a, b, .nonev)
  else if tool_name == "division_mix" then do
    let (a, b) ← unpack2
      (division_mix_ret (dGetD clean "metric" (.pystr "sales")))
    .ok (a, b, .nonev)
  else if tool_name == "margin_waterfall" then do
    let (a, b) ← unpack2
      (margin_waterfall_ret (dGetD clean "metric" (.pystr "margin"))
        (dGetD clean "group_by" (.pystr "division")))
    .ok (a, b, .nonev)
  else if tool_name == "kpi_scorecard" then do
    let (a, b) ← unpack2 kpi_scorecard_ret
    .ok (a, b, .nonev)
  else if tool_name == "price_elasticity" then do
    let (a, b) ← unpack2 (price_elasticity_ret
      (price_elasticity df division region category brand))
    .ok (a, b, .nonev)
  else if tool_name == "brand_benchmarking" then do
    let (a, b) ← unpack2
      (brand_benchmarking_ret (dGetD clean "metric" (.pystr "sales")))
    .ok (a, b, .nonev)
  else if tool_name == "growth_margin_matrix" then
    unpack3 (growth_margin_matrix_ret
      (growth_margin_matrix df (dGetD clean "group_by" (.pystr "division"))
        division region category brand))
  else do
    let _ := yoy_comparison df "division" "sales"
      .pynull .pynull .pynull .pynull
    .ok (.figv, .tablev, .nonev)

/-! ## Claim C3: dispatch never raises — refuted by the code -/

/-- C3 (the code evaluated at failing inputs): `tool_router` raises on
inputs the claim says it must handle.  The `growth_margin_matrix` branch
unpacks three values from the tool's two-element return (ValueError on
every input); the `anomaly_detection` branch passes keyword arguments the
tool does not accept (TypeError on every input); the `store_performance`
branch applies `int(...)` to a normalised-to-None `top_n` (TypeError). -/
theorem tool_router_raises :
    tool_router "growth_margin_matrix" [("metric", PyVal.pystr "sales")] []
      = .error "ValueError: not enough values to unpack (expected 3)" ∧
    tool_router "anomaly_detection" [("metric", PyVal.pystr "margin_rate")] []
      = .error "TypeError: anomaly_detection() got an unexpected keyword argument" ∧
    tool_router "store_performance" [("top_n", PyVal.pystr "null")] []
      = .error "TypeError: int() argument must be a string or a number, not NoneType" := by
  exact ⟨rfl, rfl, rfl⟩

/-! ## Claim C6: null-sentinel normalisation in the dispatch layer -/

/-- C6: `tool_router` normalises its filter dictionary with
`cleanFilters` before any tool branch reads a value (the first line of
`tool_router`): every binding whose value is None or a case-insensitive
null-sentinel string ("null", "none", "") is replaced by true null, and
every other binding is forwarded unchanged. -/
theorem cleanFilters_normalizes (fs : List (String × PyVal)) (k : String)
    (v : PyVal) (h : (k, v) ∈ fs) :
    (isNullSentinel v = true → (k, PyVal.pynull) ∈ cleanFilters fs) ∧
    (isNullSentinel v = false → (k, v) ∈ cleanFilters fs) := by
  constructor <;> intro hv <;>
    exact List.mem_map.mpr ⟨(k, v), h, by simp [hv]⟩

/-- Witness for `cleanFilters_normalizes`: the sentinel string "None"
under the key "region" normalises to true null. -/
theorem cleanFilters_normalizes_witness :
    (("region", PyVal.pystr "None")
        ∈ [("region", PyVal.pystr "None"), ("metric", PyVal.pystr "sales")]) ∧
    ("region", PyVal.pynull)
        ∈ cleanFilters
            [("region", PyVal.pystr "None"), ("metric", PyVal.pystr "sales")] :=
  ⟨by decide,
   (cleanFilters_normalizes _ "region" (PyVal.pystr "None") (by decide)).1
     (by decide)⟩

/-! ## The response parser — `extract_json_from_response`
(ollama_client.py 388-438)

A JSON value model and a fuel-indexed recursive-descent parser standing
for Python's `json.loads` (fuel keeps the recursion structural so that
concrete inputs evaluate in the kernel).  Known, claim-irrelevant
simplifications, each noted where it occurs: numbers are exact rationals
(int/float conflated), leading-zero strictness and the NaN/Infinity
constants are not modelled, control characters are allowed inside
strings, and \u escapes ignore surrogate pairing. -/

inductive JVal where
  | jnull
  | jbool (b : Bool)
  | jnum (q : ℚ)
  | jstr (s : String)
  | jarr (xs : List JVal)
  | jobj (fs : List (String × JVal))

/-- The backtick character. -/
def tick : Char := Char.ofNat 96

/-- The opening-brace character. -/
def braceOpen : Char := Char.ofNat 123

/-- The closing-brace character. -/
def braceClose : Char := Char.ofNat 125

/-- JSON whitespace. -/
def jsonWsChar (c : Char) : Bool :=
  c == ' ' || c == '\t' || c == '\n' || c == '\r'

/-- Skip JSON whitespace. -/
def skipJWs (cs : List Char) : List Char := cs.dropWhile jsonWsChar

/-- Hexadecimal digit value. -/
def hexVal (c : Char) : Option Nat :=
  if c.isDigit then some (c.toNat - 48)
  else if 97 ≤ c.toNat && c.toNat ≤ 102 then some (c.toNat - 87)
  else if 65 ≤ c.toNat && c.toNat ≤ 70 then some (c.toNat - 55)
  else none

/-- Parse the contents of a JSON string after its opening quote, up to
and past the closing quote, decoding escapes. -/
def parseStrChars : Nat → List Char → Option (List Char × List Char)
  | 0, _ => none
  | _, [] => none
  | fuel + 1, c :: cs =>
    if c == '"' then some ([], cs)
    else if c == '\\' then
      match cs with
      | [] => none
      | e :: cs2 =>
        let dec : Option (Char × List Char) :=
          if e == '"' then some ('"', cs2)
          else if e == '\\' then some ('\\', cs2)
          else if e == '/' then some ('/', cs2)
          else if e == 'b' then some (Char.ofNat 8, cs2)
          else if e == 'f' then some (Char.ofNat 12, cs2)
          else if e == 'n' then some ('\n', cs2)
          else if e == 'r' then some ('\r', cs2)
          else if e == 't' then some ('\t', cs2)
          else if e == 'u' then
            match cs2 with
            | h1 :: h2 :: h3 :: h4 :: cs3 =>
              match hexVal h1, hexVal h2, hexVal h3, hexVal h4 with
              | some a, some b, some c3, some d =>
                some (Char.ofNat (((a * 16 + b) * 16 + c3) * 16 + d), cs3)
              | _, _, _, _ => none
            | _ => none
          else none
        match dec with
        | some (ch, rest) =>
          match parseStrChars fuel rest with
          | some (out, r2) => some (ch :: out, r2)
          | none => none
        | none => none
    else
      match parseStrChars fuel cs with
      | some (out, r2) => some (c :: out, r2)
      | none => none

/-- Parse a JSON number (sign, digits, optional fraction and exponent)
into an exact rational. -/
def parseNum (cs : List Char) : Option (ℚ × List Char) :=
  let signed :=
    match cs with
    | '-' :: t => (true, t)
    | _ => (false, cs)
  let ds := signed.2.takeWhile Char.isDigit
  let cs2 := signed.2.dropWhile Char.isDigit
  if ds.isEmpty then none
  else
    let ip : ℚ := (digitsToNat ds : ℚ)
    let fracRes : Option (ℚ × List Char) :=
      match cs2 with
      | '.' :: t =>
        let fs := t.takeWhile Char.isDigit
        if fs.isEmpty then none
        else some (ip + (digitsToNat fs : ℚ) / (10 : ℚ) ^ fs.length,
          t.dropWhile Char.isDigit)
      | _ => some (ip, cs2)
    match fracRes with
    | none => none
    | some (m, cs3) =>
      let expRes : Option (ℚ × List Char) :=
        match cs3 with
        | e :: t =>
          if e == 'e' || e == 'E' then
            let esigned :=
              match t with
              | '-' :: u => (true, u)
              | '+' :: u => (false, u)
              | _ => (false, t)
            let es := esigned.2.takeWhile Char.isDigit
            if es.isEmpty then none
            else
              let k := digitsToNat es
              some ((if esigned.1 then m / (10 : ℚ) ^ k else m * (10 : ℚ) ^ k),
                esigned.2.dropWhile Char.isDigit)
          else some (m, cs3)
        | [] => some (m, cs3)
      match expRes with
      | none => none
      | some (q, r) => some ((if signed.1 then -q else q), r)

/-- Parsing mode: one value, the members of an object (after the opening
brace, known non-empty), or the items of an array. -/
inductive JMode where
  | value
  | members
  | items
  deriving DecidableEq, Repr

/-- Result of one `parseJ` step, by mode. -/
inductive PRes where
  | rv (v : JVal)
  | rm (ms : List (String × JVal))
  | ri (xs : List JVal)

/-- The recursive-descent core of `json.loads`, fuel-indexed (every
recursive call strictly consumes input first, so `2 * length + 4` fuel
never runs out on real input). -/
def parseJ : Nat → JMode → List Char → Option (PRes × List Char)
  | 0, _, _ => none
  | fuel + 1, .value, cs =>
    match skipJWs cs with
    | [] => none
    | c :: rest =>
      if c == '"' then
        match parseStrChars (rest.length + 1) rest with
        | some (out, r) => some (.rv (.jstr ⟨out⟩), r)
        | none => none
      else if c == braceOpen then
        match skipJWs rest with
        | c2 :: r2 =>
          if c2 == braceClose then some (.rv (.jobj []), r2)
          else
            match parseJ fuel .members rest with
            | some (.rm ms, r3) => some (.rv (.jobj ms), r3)
            | _ => none
        | [] => none
      else if c == '[' then
        match skipJWs rest with
        | c2 :: r2 =>
          if c2 == ']' then some (.rv (.jarr []), r2)
          else
            match parseJ fuel .items rest with
            | some (.ri xs, r3) => some (.rv (.jarr xs), r3)
            | _ => none
        | [] => none
      else if c == 't' then
        match dropLit "true".data (c :: rest) with
        | some r => some (.rv (.jbool true), r)
        | none => none
      else if c == 'f' then
        match dropLit "false".data (c :: rest) with
        | some r => some (.rv (.jbool false), r)
        | none => none
      else if c == 'n' then
        match dropLit "null".data (c :: rest) with
        | some r => some (.rv .jnull, r)
        | none => none
      else if c == '-' || c.isDigit then
        match parseNum (c :: rest) with
        | some (q, r) => some (.rv (.jnum q), r)
        | none => none
      else none
  | fuel + 1, .members, cs =>
    match skipJWs cs with
    | [] => none
    | c :: rest =>
      if c == '"' then
        match parseStrChars (rest.length + 1) rest with
        | some (key, r1) =>
          match skipJWs r1 with
          | ':' :: r2 =>
            match parseJ fuel .value r2 with
            | some (.rv v, r3) =>
              match skipJWs r3 with
              | ',' :: r4 =>
                match parseJ fuel .members r4 with
                | some (.rm ms, r5) => some (.rm ((⟨key⟩, v) :: ms), r5)
                | _ => none
              | c2 :: r4 =>
                if c2 == braceClose then some (.rm [(⟨key⟩, v)], r4) else none
              | [] => none
            | _ => none
          | _ => none
        | none => none
      else none
  | fuel + 1, .items, cs =>
    match parseJ fuel .value cs with
    | some (.rv v, r1) =>
      match skipJWs r1 with
      | ',' :: r2 =>
        match parseJ fuel .items r2 with
        | some (.ri xs, r3) => some (.ri (v :: xs), r3)
        | _ => none
      | c2 :: r2 => if c2 == ']' then some (.ri [v], r2) else none
      | [] => none
    | _ => none

/-- `json.loads(s)`: parse one value and require only whitespace to
follow. -/
def jsonLoads (s : String) : Option JVal :=
  match parseJ (2 * s.data.length + 4) .value s.data with
  | some (.rv v, rest) => if (skipJWs rest).isEmpty then some v else none
  | _ => none

/-- Python `str.strip()` (ASCII whitespace, which is all these responses
contain). -/
def pyStrip (s : String) : String :=
  ⟨((s.data.dropWhile isWsChar).reverse.dropWhile isWsChar).reverse⟩

/-- Does a triple backtick follow the whitespace run here (the regex tail
`\s*\n?` followed by the closing fence — the optional newline is already
inside `\s*`)? -/
def fenceTail (cs : List Char) : Bool :=
  startsWithL [tick, tick, tick] (cs.dropWhile isWsChar)

/-- Scan the non-greedy fenced body: the first closing brace that is
followed by the closing fence ends the capture. -/
def fenceScanBody : Nat → List Char → List Char → Option (List Char)
  | 0, _, _ => none
  | _, _, [] => none
  | fuel + 1, acc, c :: rest =>
    if c == braceClose && fenceTail rest then some ((c :: acc).reverse)
    else fenceScanBody fuel (c :: acc) rest

/-- Try the fence pattern anchored at `cs`: literal opening fence,
optional "json" tag (tried first, then without — regex backtracking on
`(?:json)?`), whitespace, then a braced group captured non-greedily up to
a closing fence. -/
def fenceMatchAt (cs : List Char) : Option String :=
  match dropLit [tick, tick, tick] cs with
  | none => none
  | some r1 =>
    let tryFrom : List Char → Option String := fun r =>
      match r.dropWhile isWsChar with
      | c :: rest =>
        if c == braceOpen then
          match fenceScanBody (rest.length + 1) [] rest with
          | some body => some ⟨braceOpen :: body⟩
          | none => none
        else none
      | [] => none
    match dropLit "json".data r1 with
    | some r1j =>
      match tryFrom r1j with
      | some s => some s
      | none => tryFrom r1
    | none => tryFrom r1

/-- `re.search` of the fence pattern: leftmost matching start. -/
def fenceSearch : List Char → Option String
  | [] => none
  | c :: cs =>
    match fenceMatchAt (c :: cs) with
    | some s => some s
    | none => fenceSearch cs

/-- The depth-counting walk of strategy 3 (ollama_client.py 424-436):
from the first opening brace, count depth on every brace regardless of
string context, and slice at the first return to depth 0. -/
def braceWalk : List Char → Int → List Char → Option (List Char)
  | [], _, _ => none
  | c :: cs, depth, acc =>
    if c == braceOpen then braceWalk cs (depth + 1) (c :: acc)
    else if c == braceClose then
      if depth - 1 == 0 then some ((c :: acc).reverse)
      else braceWalk cs (depth - 1) (c :: acc)
    else braceWalk cs depth (c :: acc)

/-- `text.find("{")` then the brace-matching walk. -/
def braceSlice (cs : List Char) : Option (List Char) :=
  match cs.dropWhile (fun c => !(c == braceOpen)) with
  | [] => none
  | rest => braceWalk rest 0 []

/-- `extract_json_from_response(raw_text)` (ollama_client.py 388-438):
direct parse of the stripped text, then the fenced-block pattern, then
the balanced-brace scan (whose parse failure breaks out of the loop);
when all three fail, raise ValueError carrying the first 200 characters
of the text. -/
def extract_json_from_response (raw_text : String) :
    Except String JVal :=
  let text := pyStrip raw_text
  match jsonLoads text with
  | some v => .ok v
  | none =>
    match (fenceSearch text.data).bind (fun s => jsonLoads s) with
    | some v => .ok v
    | none =>
      match braceSlice text.data with
      | some slice =>
        match jsonLoads ⟨slice⟩ with
        | some v => .ok v
        | none =>
          .error ("Could not extract valid JSON from LLM response: "
            ++ ⟨text.data.take 200⟩)
      | none =>
        .error ("Could not extract valid JSON from LLM response: "
          ++ ⟨text.data.take 200⟩)

/-! ## Pass 1 routing — `ask_llm` (ollama_client.py 892-950) -/

/-- `VALID_TOOLS` (config.py 17). -/
def VALID_TOOLS : List String :=
  ["yoy_comparison", "brand_region_crosstab", "forecast_trendline",
   "anomaly_detection", "price_volume_margin", "store_performance",
   "seasonality_trends", "division_mix", "margin_waterfall",
   "kpi_scorecard", "price_elasticity", "brand_benchmarking",
   "growth_margin_matrix", "out_of_scope"]

/-- Lookup in a JSON object (`d.get(k)`). -/
def jGet (fs : List (String × JVal)) (k : String) : Option JVal :=
  match fs.find? (fun kv => kv.1 == k) with
  | some kv => some kv.2
  | none => none

/-- Python dict assignment `d[k] = v` on an association list. -/
def dSetJ (fs : List (String × JVal)) (k : String) (v : JVal) :
    List (String × JVal) :=
  if fs.any (fun kv => kv.1 == k) then
    fs.map (fun kv => if kv.1 == k then (kv.1, v) else kv)
  else fs ++ [(k, v)]

/-- Python truthiness of a JSON value. -/
def jTruthy : JVal → Bool
  | .jnull => false
  | .jbool b => b
  | .jnum q => q ≠ 0
  | .jstr s => s ≠ ""
  | .jarr xs => !xs.isEmpty
  | .jobj fs => !fs.isEmpty

/-- `validate_llm_response(parsed)` (ollama_client.py 746-774): coerce an
unknown tool name to "yoy_comparison", default a missing/non-dict filters
object to `{"metric": "sales"}`, and default a falsy metric to "sales".
`dict(parsed)` on a non-object raises TypeError (caught by `ask_llm`'s
generic handler; a top-level array of pairs, which `dict()` would also
accept, is outside the modelled classifier contract). -/
def validate_llm_response (parsed : JVal) :
    Except String (String × List (String × JVal)) :=
  match parsed with
  | .jobj fs =>
    let tool :=
      match jGet fs "tool" with
      | some (.jstr s) => if VALID_TOOLS.contains s then s else "yoy_comparison"
      | _ => "yoy_comparison"
    let ffs :=
      match jGet fs "filters" with
      | some (.jobj gs) => gs
      | _ => [("metric", JVal.jstr "sales")]
    let ffs2 :=
      match jGet ffs "metric" with
      | some v => if jTruthy v then ffs else dSetJ ffs "metric" (.jstr "sales")
      | none => dSetJ ffs "metric" (.jstr "sales")
    .ok (tool, ffs2)
  | _ => .error "TypeError: cannot convert non-object to dict"

/-- JSON filter values as the downstream Python sees them.  The
classifier contract produces strings, integers, bools and null;
fractional numbers are truncated to their numerator and containers map to
null, both outside every claim. -/
def jToPy : JVal → PyVal
  | .jnull => .pynull
  | .jbool b => .pybool b
  | .jstr s => .pystr s
  | .jnum q => .pyint q.num
  | .jarr _ => .pynull
  | .jobj _ => .pynull

/-- One converted filter value (missing key = null). -/
def jPyAt (fs : List (String × JVal)) (k : String) : PyVal :=
  match jGet fs k with
  | some v => jToPy v
  | none => .pynull

/-- The validated filters object read into the recognized-key record that
`extract_missing_filters` scans. -/
def filtersOfJObj (fs : List (String × JVal)) : Filters :=
  { region := jPyAt fs "region", division := jPyAt fs "division",
    category := jPyAt fs "category", brand := jPyAt fs "brand",
    metric := jPyAt fs "metric", group_by := jPyAt fs "group_by",
    group_value := jPyAt fs "group_value",
    time_grain := jPyAt fs "time_grain", top_n := jPyAt fs "top_n",
    view := jPyAt fs "view", year := jPyAt fs "year" }

/-- The routing decision `ask_llm` returns: tool, filters, whether the
keyword guard overrode the classifier (`_routing_override`), and whether
the generic exception fallback attached its `_error` marker. -/
structure RouteResult where
  tool : String
  filters : Filters
  hadOverride : Bool
  hadError : Bool
  deriving DecidableEq, Repr

/-- The pure routing pipeline of `ask_llm` (ollama_client.py 892-950)
applied to the classifier's raw text: extract JSON, validate, run the
keyword override and the filter backfill; a ValueError from extraction is
caught and maps to the safe default decision
`{tool: "yoy_comparison", filters: {metric: "sales"}}` (lines 938-943,
without the `_error` marker); any other failure maps to the same decision
with the `_error` marker (lines 944-950).  The network call around this
pipeline is outside the modelled scope. -/
def ask_llm_route (question : String) (raw_text : String) : RouteResult :=
  match extract_json_from_response raw_text with
  | .error _ =>
    { tool := "yoy_comparison",
      filters := { emptyFilters with metric := .pystr "sales" },
      hadOverride := false, hadError := false }
  | .ok parsed =>
    match validate_llm_response parsed with
    | .error _ =>
      { tool := "yoy_comparison",
        filters := { emptyFilters with metric := .pystr "sales" },
        hadOverride := false, hadError := true }
    | .ok (tool0, ffs) =>
      let tool1 := validate_routing question tool0
      { tool := tool1,
        filters := extract_missing_filters question (filtersOfJObj ffs),
        hadOverride := tool1 != tool0, hadError := false }

/-! ## Claim C9: parse failure degrades to the safe default -/

/-- C9: whenever the three-stage extraction chain fails on the raw
classifier text, `extract_json_from_response` raises the distinguishable
ValueError and the routing caller catches it and returns exactly the safe
default decision — tool "yoy_comparison" with filters {metric: "sales"} —
rather than propagating the failure. -/
theorem parse_failure_safe_default (question raw_text : String)
    (h : ∃ e, extract_json_from_response raw_text = .error e) :
    ask_llm_route question raw_text
      = { tool := "yoy_comparison",
          filters := { emptyFilters with metric := .pystr "sales" },
          hadOverride := false, hadError := false } := by
  obtain ⟨e, he⟩ := h
  unfold ask_llm_route
  rw [he]

/-- Witness for `parse_failure_safe_default`: prose with no JSON object
at all fails all three strategies. -/
theorem parse_failure_safe_default_witness :
    extract_json_from_response "Sorry, I cannot decide which tool to use."
      = .error ("Could not extract valid JSON from LLM response: "
          ++ "Sorry, I cannot decide which tool to use.") ∧
    ask_llm_route "which brands sell best"
        "Sorry, I cannot decide which tool to use."
      = { tool := "yoy_comparison",
          filters := { emptyFilters with metric := .pystr "sales" },
          hadOverride := false, hadError := false } :=
  ⟨rfl,
   parse_failure_safe_default "which brands sell best"
     "Sorry, I cannot decide which tool to use."
     ⟨"Could not extract valid JSON from LLM response: "
        ++ "Sorry, I cannot decide which tool to use.", rfl⟩⟩

end BIAgent
